import Mathlib

/-!
Verification development for the synthetic-data-generator service.

The definitions below are a shallow embedding, translated from the Python
sources of the repository:
  * `src/utils/hash_utils.py`        (content-key generation and validation)
  * `src/services/cache_service.py`  (file-based schema cache)
  * `src/utils/file_operations.py`   (JSON file read/write/ensure helpers)
  * `src/services/anthropic_schema_generator.py` (rate governor)
  * `src/services/data_generator.py` (field resolution and row synthesis)
Machine integers are modelled as `Nat`/`Int` with explicit `% 2^w` where the
source relies on fixed-width arithmetic; fallible code returns `Except`;
wall-clock instants are modelled as rationals.
-/

namespace SDG

/-! ### Character classes (ASCII fragment of Python's `str` semantics)

Python's `str.lower`, `\s` in `re`, and `str.strip` operate on full Unicode;
the repository only ever feeds them user descriptions.  We model the ASCII
fragment: lowercasing maps `A`–`Z` to `a`–`z`, and whitespace is the ASCII
whitespace set `space, \t, \n, \r, \f, \v`. -/

/-- ASCII whitespace as matched by Python's `\s` and stripped by
`str.strip`: space, `\t`, `\n`, `\r`, `\f`, `\v` and the separator
controls `\x1c`–`\x1f`. -/
def isPySpace (c : Char) : Bool :=
  c = ' ' ∨ c = '\t' ∨ c = '\n' ∨ c = '\r' ∨ c = '\x0c' ∨ c = '\x0b' ∨
  c = '\x1c' ∨ c = '\x1d' ∨ c = '\x1e' ∨ c = '\x1f'

/-- ASCII lowercasing of one character (fragment of Python `str.lower`). -/
def lowerChar (c : Char) : Char :=
  if 'A' ≤ c ∧ c ≤ 'Z' then Char.ofNat (c.toNat + 32) else c

/-- The punctuation class `[,.!?;:]` of the regex in `_normalize_description`. -/
def isPunctChar (c : Char) : Bool :=
  c = ',' ∨ c = '.' ∨ c = '!' ∨ c = '?' ∨ c = ';' ∨ c = ':'

/-- `re.sub(r'\s+', ' ', s)`: every maximal run of whitespace characters is
replaced by a single space.  (Structurally recursive formulation: a whitespace
character followed by another whitespace character is dropped, the last
character of each run becomes the single `' '`.) -/
def collapseWS : List Char → List Char
  | [] => []
  | [c] => if isPySpace c then [' '] else [c]
  | c₁ :: c₂ :: rest =>
    if isPySpace c₁ then
      if isPySpace c₂ then collapseWS (c₂ :: rest)
      else ' ' :: collapseWS (c₂ :: rest)
    else c₁ :: collapseWS (c₂ :: rest)

/-- Python `str.strip()` (ASCII whitespace fragment). -/
def stripWS (l : List Char) : List Char :=
  ((l.dropWhile isPySpace).reverse.dropWhile isPySpace).reverse

/-- One left-to-right pass of `re.sub(r'\s*([,.!?;:])\s*', r'\1 ', s)`.

At each position the engine matches a (possibly empty) whitespace run, then a
punctuation character, then a (possibly empty, greedy) whitespace run, and
replaces the whole match by the punctuation character followed by one space;
scanning resumes after the match.  The first argument is fuel, always called
with the length of the list (every recursive call strictly shrinks the list,
so the fuel is never exhausted). -/
def punctSpaceSubF : Nat → List Char → List Char
  | 0, l => l
  | _ + 1, [] => []
  | fuel + 1, c :: rest =>
    if isPunctChar c then
      c :: ' ' :: punctSpaceSubF fuel (rest.dropWhile isPySpace)
    else if isPySpace c then
      -- leading `\s*`: the match succeeds iff the first non-space character
      -- of the run that starts here is punctuation
      match rest.dropWhile isPySpace with
      | [] => c :: rest.takeWhile isPySpace
      | d :: after =>
        if isPunctChar d then
          d :: ' ' :: punctSpaceSubF fuel (after.dropWhile isPySpace)
        else
          (c :: rest.takeWhile isPySpace) ++ punctSpaceSubF fuel (d :: after)
    else
      c :: punctSpaceSubF fuel rest

/-- `re.sub(r'\s*([,.!?;:])\s*', r'\1 ', s)` with the fuel instantiated. -/
def punctSpaceSub (l : List Char) : List Char :=
  punctSpaceSubF l.length l

/-- `_normalize_description` from `src/utils/hash_utils.py`: lowercase,
collapse whitespace runs, strip, normalize punctuation spacing, collapse
again, strip again. -/
def normalizeDescription (description : String) : String :=
  let n1 := description.data.map lowerChar
  let n2 := collapseWS n1
  let n3 := stripWS n2
  let n4 := punctSpaceSub n3
  let n5 := collapseWS n4
  String.mk (stripWS n5)

/-! ### UTF-8 encoding (`str.encode('utf-8')`), bytes as `Nat < 256` -/

/-- UTF-8 encoding of a single character (RFC 3629). -/
def utf8Char (c : Char) : List Nat :=
  let n := c.toNat
  if n < 0x80 then [n]
  else if n < 0x800 then [0xC0 + n / 64, 0x80 + n % 64]
  else if n < 0x10000 then [0xE0 + n / 4096, 0x80 + n / 64 % 64, 0x80 + n % 64]
  else [0xF0 + n / 262144, 0x80 + n / 4096 % 64, 0x80 + n / 64 % 64, 0x80 + n % 64]

/-- `s.encode('utf-8')` as a byte list. -/
def utf8Encode (s : String) : List Nat :=
  (s.data.map utf8Char).flatten

/-! ### SHA-256 (`hashlib.sha256`), words as `Nat` reduced mod `2^32` -/

/-- Truncation to a 32-bit word. -/
def w32 (n : Nat) : Nat := n % 2 ^ 32

/-- 32-bit right rotation (input assumed `< 2^32`). -/
def rotr32 (x n : Nat) : Nat := x / 2 ^ n + x % 2 ^ n * 2 ^ (32 - n)

/-- 32-bit complement. -/
def not32 (x : Nat) : Nat := x ^^^ (2 ^ 32 - 1)

/-- SHA-256 `Ch(x,y,z)`. -/
def ch32 (x y z : Nat) : Nat := (x &&& y) ^^^ (not32 x &&& z)

/-- SHA-256 `Maj(x,y,z)`. -/
def maj32 (x y z : Nat) : Nat := (x &&& y) ^^^ (x &&& z) ^^^ (y &&& z)

/-- SHA-256 `Σ₀`. -/
def bigSigma0 (x : Nat) : Nat := rotr32 x 2 ^^^ rotr32 x 13 ^^^ rotr32 x 22

/-- SHA-256 `Σ₁`. -/
def bigSigma1 (x : Nat) : Nat := rotr32 x 6 ^^^ rotr32 x 11 ^^^ rotr32 x 25

/-- SHA-256 `σ₀`. -/
def smallSigma0 (x : Nat) : Nat := rotr32 x 7 ^^^ rotr32 x 18 ^^^ x / 2 ^ 3

/-- SHA-256 `σ₁`. -/
def smallSigma1 (x : Nat) : Nat := rotr32 x 17 ^^^ rotr32 x 19 ^^^ x / 2 ^ 10

/-- The eight working variables / hash state of SHA-256. -/
structure Hash8 where
  h0 : Nat
  h1 : Nat
  h2 : Nat
  h3 : Nat
  h4 : Nat
  h5 : Nat
  h6 : Nat
  h7 : Nat

/-- SHA-256 initial hash value. -/
def sha256InitH : Hash8 :=
  ⟨1779033703, 3144134277, 1013904242, 2773480762,
   1359893119, 2600822924, 528734635, 1541459225⟩

/-- The 64 SHA-256 round constants. -/
def sha256K : List Nat :=
  [1116352408, 1899447441, 3049323471, 3921009573, 961987163,
   1508970993, 2453635748, 2870763221, 3624381080, 310598401,
   607225278, 1426881987, 1925078388, 2162078206, 2614888103,
   3248222580, 3835390401, 4022224774, 264347078, 604807628,
   770255983, 1249150122, 1555081692, 1996064986, 2554220882,
   2821834349, 2952996808, 3210313671, 3336571891, 3584528711,
   113926993, 338241895, 666307205, 773529912, 1294757372,
   1396182291, 1695183700, 1986661051, 2177026350, 2456956037,
   2730485921, 2820302411, 3259730800, 3345764771, 3516065817,
   3600352804, 4094571909, 275423344, 430227734, 506948616,
   659060556, 883997877, 958139571, 1322822218, 1537002063,
   1747873779, 1955562222, 2024104815, 2227730452, 2361852424,
   2428436474, 2756734187, 3204031479, 3329325298]

/-- Big-endian 32-bit words from a byte list (length a multiple of 4). -/
def bytesToWords : List Nat → List Nat
  | b0 :: b1 :: b2 :: b3 :: rest =>
    (((b0 * 256 + b1) * 256 + b2) * 256 + b3) :: bytesToWords rest
  | _ => []

/-- Extend a 16-word schedule by `k` further words. -/
def extendSchedule : Nat → List Nat → List Nat
  | 0, ws => ws
  | k + 1, ws =>
    let n := ws.length
    let wNew := w32 (smallSigma1 (ws.getD (n - 2) 0) + ws.getD (n - 7) 0 +
      smallSigma0 (ws.getD (n - 15) 0) + ws.getD (n - 16) 0)
    extendSchedule k (ws ++ [wNew])

/-- One SHA-256 round, consuming a (round constant, schedule word) pair. -/
def sha256Round (st : Hash8) (kw : Nat × Nat) : Hash8 :=
  let t1 := w32 (st.h7 + bigSigma1 st.h4 + ch32 st.h4 st.h5 st.h6 + kw.1 + kw.2)
  let t2 := w32 (bigSigma0 st.h0 + maj32 st.h0 st.h1 st.h2)
  ⟨w32 (t1 + t2), st.h0, st.h1, st.h2, w32 (st.h3 + t1), st.h4, st.h5, st.h6⟩

/-- SHA-256 compression of one 64-byte block. -/
def sha256Compress (st : Hash8) (block : List Nat) : Hash8 :=
  let ws := extendSchedule 48 (bytesToWords block)
  let r := (sha256K.zip ws).foldl sha256Round st
  ⟨w32 (st.h0 + r.h0), w32 (st.h1 + r.h1), w32 (st.h2 + r.h2), w32 (st.h3 + r.h3),
   w32 (st.h4 + r.h4), w32 (st.h5 + r.h5), w32 (st.h6 + r.h6), w32 (st.h7 + r.h7)⟩

/-- The bit length of the message as 8 big-endian bytes. -/
def lenBytes64 (n : Nat) : List Nat :=
  [n / 2 ^ 56 % 256, n / 2 ^ 48 % 256, n / 2 ^ 40 % 256, n / 2 ^ 32 % 256,
   n / 2 ^ 24 % 256, n / 2 ^ 16 % 256, n / 2 ^ 8 % 256, n % 256]

/-- SHA-256 padding: `0x80`, zeros to 56 mod 64, then the 64-bit bit length. -/
def sha256Pad (msg : List Nat) : List Nat :=
  let len := msg.length
  let zeros := (64 + 56 - (len + 1) % 64) % 64
  msg ++ 0x80 :: List.replicate zeros 0 ++ lenBytes64 (len * 8)

/-- Split a byte list into 64-byte blocks (first argument is fuel, always
instantiated with the list length). -/
def chunks64F : Nat → List Nat → List (List Nat)
  | 0, _ => []
  | _ + 1, [] => []
  | fuel + 1, l => l.take 64 :: chunks64F fuel (l.drop 64)

/-- The four big-endian bytes of a 32-bit word. -/
def wordBytes (w : Nat) : List Nat :=
  [w / 2 ^ 24 % 256, w / 2 ^ 16 % 256, w / 2 ^ 8 % 256, w % 256]

/-- SHA-256 digest of a byte message, as a list of 32 bytes. -/
def sha256Bytes (msg : List Nat) : List Nat :=
  let padded := sha256Pad msg
  let fin := (chunks64F padded.length padded).foldl sha256Compress sha256InitH
  wordBytes fin.h0 ++ wordBytes fin.h1 ++ wordBytes fin.h2 ++ wordBytes fin.h3 ++
  wordBytes fin.h4 ++ wordBytes fin.h5 ++ wordBytes fin.h6 ++ wordBytes fin.h7

/-- One lowercase hexadecimal digit. -/
def hexDigitChar (n : Nat) : Char :=
  if n < 10 then Char.ofNat (48 + n) else Char.ofNat (87 + n)

/-- Two lowercase hex characters of one byte. -/
def byteHex (b : Nat) : List Char := [hexDigitChar (b / 16), hexDigitChar (b % 16)]

/-- `hashlib.sha256(...).hexdigest()` over a byte list. -/
def hexdigest (bytes : List Nat) : String :=
  String.mk (bytes.map byteHex).flatten

/-- `generate_cache_key` from `src/utils/hash_utils.py`: raises `ValueError`
on an empty description (`if not description`), otherwise hashes the UTF-8
encoding of the normalized description. -/
def generate_cache_key (description : String) : Except String String :=
  if description = "" then
    Except.error "Description cannot be empty for hash generation"
  else
    Except.ok (hexdigest (sha256Bytes (utf8Encode (normalizeDescription description))))

/-- Lowercase-hexadecimal character predicate. -/
def isLowerHexChar (c : Char) : Bool :=
  ('0' ≤ c ∧ c ≤ '9') ∨ ('a' ≤ c ∧ c ≤ 'f')

lemma mem_wordBytes_lt {b w : Nat} (h : b ∈ wordBytes w) : b < 256 := by
  simp only [wordBytes, List.mem_cons, List.not_mem_nil, or_false] at h
  rcases h with h | h | h | h <;> omega

lemma sha256Bytes_length (msg : List Nat) : (sha256Bytes msg).length = 32 := by
  simp [sha256Bytes, wordBytes]

lemma sha256Bytes_lt (msg : List Nat) : ∀ b ∈ sha256Bytes msg, b < 256 := by
  intro b hb
  simp only [sha256Bytes, List.mem_append] at hb
  rcases hb with ((((((h | h) | h) | h) | h) | h) | h) | h <;>
    exact mem_wordBytes_lt h

lemma hexDigitChar_isHex : ∀ n < 16, isLowerHexChar (hexDigitChar n) = true := by
  decide

lemma hexChars_length (bytes : List Nat) :
    ((bytes.map byteHex).flatten).length = 2 * bytes.length := by
  induction bytes with
  | nil => simp
  | cons b rest ih => simp [byteHex, ih]; omega

lemma hexChars_mem {bytes : List Nat} (hlt : ∀ b ∈ bytes, b < 256) :
    ∀ c ∈ (bytes.map byteHex).flatten, isLowerHexChar c = true := by
  intro c hc
  simp only [List.mem_flatten, List.mem_map] at hc
  obtain ⟨l, ⟨b, hb, rfl⟩, hcl⟩ := hc
  have hblt := hlt b hb
  simp only [byteHex, List.mem_cons, List.not_mem_nil, or_false] at hcl
  rcases hcl with rfl | rfl
  · exact hexDigitChar_isHex _ (by omega)
  · exact hexDigitChar_isHex _ (by omega)

/-- C1 (amended to non-empty descriptions): for every pair of *non-empty*
description strings whose normalized forms are equal, `generate_cache_key`
returns the same result, and that result is a 64-character string of
lowercase hexadecimal characters. -/
theorem c1_cache_key_normalization_and_hex (D1 D2 : String)
    (h1 : D1 ≠ "") (h2 : D2 ≠ "")
    (hn : normalizeDescription D1 = normalizeDescription D2) :
    generate_cache_key D1 = generate_cache_key D2 ∧
    ∃ s, generate_cache_key D1 = Except.ok s ∧ s.length = 64 ∧
      ∀ c ∈ s.data, isLowerHexChar c = true := by
  unfold generate_cache_key
  rw [if_neg h1, if_neg h2, hn]
  refine ⟨rfl, hexdigest (sha256Bytes (utf8Encode (normalizeDescription D2))), rfl, ?_, ?_⟩
  · show ((sha256Bytes (utf8Encode (normalizeDescription D2))).map byteHex).flatten.length = 64
    rw [hexChars_length, sha256Bytes_length]
  · show ∀ c ∈ ((sha256Bytes (utf8Encode (normalizeDescription D2))).map byteHex).flatten,
      isLowerHexChar c = true
    exact hexChars_mem (sha256Bytes_lt _)

/-- C1, counterexample to the claim as stated: the empty description and the
one-space description have equal normalized forms, yet `generate_cache_key`
on the empty description raises `ValueError` instead of returning any
64-character hexadecimal string. -/
theorem c1_counterexample_empty_description :
    normalizeDescription "" = normalizeDescription " " ∧
    ∀ s : String, generate_cache_key "" ≠ Except.ok s := by
  refine ⟨by decide, fun s h => ?_⟩
  have he : generate_cache_key "" =
      Except.error "Description cannot be empty for hash generation" := rfl
  rw [he] at h
  exact Except.noConfusion h

/-- C1 witness: the theorem applied to the concrete pair `"a1"`, `"A1"`. -/
theorem c1_witness :
    ("a1" ≠ "" ∧ "A1" ≠ "" ∧ normalizeDescription "a1" = normalizeDescription "A1") ∧
    (generate_cache_key "a1" = generate_cache_key "A1" ∧
     ∃ s, generate_cache_key "a1" = Except.ok s ∧ s.length = 64 ∧
       ∀ c ∈ s.data, isLowerHexChar c = true) :=
  ⟨⟨by decide, by decide, by decide⟩,
   c1_cache_key_normalization_and_hex "a1" "A1" (by decide) (by decide) (by decide)⟩

/-! ### Naive `datetime` values, `isoformat` and `fromisoformat`

`cache_service.py` stores `schema.created_at.isoformat()` in the JSON file and
re-reads it with `datetime.fromisoformat`.  The program only ever constructs
naive datetimes (`datetime.now()`), so the model is a naive datetime; the
parser accepts the canonical `isoformat` output `YYYY-MM-DDTHH:MM:SS[.ffffff]`
and performs the calendar validation `fromisoformat` performs. -/

/-- A naive Python `datetime`. -/
structure DateTime where
  year : Nat
  month : Nat
  day : Nat
  hour : Nat
  minute : Nat
  second : Nat
  microsecond : Nat
deriving DecidableEq

/-- ASCII decimal digit test. -/
def isDigitChar (c : Char) : Bool := '0' ≤ c ∧ c ≤ '9'

/-- Decimal digits of `n`, most significant first (first argument is fuel,
instantiated with `n + 1`, which always suffices). -/
def natDigitsF : Nat → Nat → List Char
  | 0, _ => []
  | fuel + 1, n =>
    if n < 10 then [Char.ofNat (48 + n)]
    else natDigitsF fuel (n / 10) ++ [Char.ofNat (48 + n % 10)]

/-- Decimal digits of `n`, most significant first. -/
def natDigits (n : Nat) : List Char := natDigitsF (n + 1) n

/-- Left-pad with `'0'` to width `w` (Python `'%0*d'` formatting). -/
def padNat (w n : Nat) : List Char :=
  List.replicate (w - (natDigits n).length) '0' ++ natDigits n

/-- Numeric value of a digit character. -/
def digitVal (c : Char) : Nat := c.toNat - 48

/-- Value of a most-significant-first digit list. -/
def valDigits (l : List Char) : Nat := l.foldl (fun a c => a * 10 + digitVal c) 0

/-- Python `datetime.isoformat()` for naive datetimes. -/
def printIso (d : DateTime) : String :=
  String.mk (padNat 4 d.year ++ ('-' :: (padNat 2 d.month ++ ('-' :: (padNat 2 d.day ++
    ('T' :: (padNat 2 d.hour ++ (':' :: (padNat 2 d.minute ++ (':' :: (padNat 2 d.second ++
    (if d.microsecond = 0 then [] else '.' :: padNat 6 d.microsecond))))))))))))

/-- Gregorian leap year. -/
def isLeapYear (y : Nat) : Bool := (y % 4 = 0 ∧ y % 100 ≠ 0) ∨ y % 400 = 0

/-- Days in a month of the proleptic Gregorian calendar. -/
def daysInMonth (y m : Nat) : Nat :=
  if m = 2 then (if isLeapYear y then 29 else 28)
  else if m = 4 ∨ m = 6 ∨ m = 9 ∨ m = 11 then 30
  else 31

/-- Parse exactly `w` decimal digits, returning the value and the rest. -/
def parseFixedNat (w : Nat) (l : List Char) : Option (Nat × List Char) :=
  let pre := l.take w
  if pre.length = w && pre.all isDigitChar then some (valDigits pre, l.drop w)
  else none

/-- Require character `c` at the head of the input. -/
def expectChar (c : Char) : List Char → Option (List Char)
  | [] => none
  | d :: rest => if d = c then some rest else none

/-- The field-range validation performed by the `datetime` constructor (and
hence by `fromisoformat`). -/
def dateFieldsOK (y mo d h mi se us : Nat) : Prop :=
  1 ≤ y ∧ y ≤ 9999 ∧ 1 ≤ mo ∧ mo ≤ 12 ∧ 1 ≤ d ∧ d ≤ daysInMonth y mo ∧
  h ≤ 23 ∧ mi ≤ 59 ∧ se ≤ 59 ∧ us ≤ 999999

instance (y mo d h mi se us : Nat) : Decidable (dateFieldsOK y mo d h mi se us) := by
  unfold dateFieldsOK; infer_instance

/-- Python `datetime.fromisoformat` restricted to the canonical
`isoformat` output grammar, raising (`none`) on any malformed or
out-of-range input. -/
def parseIso (s : String) : Option DateTime := do
  let (y, r) ← parseFixedNat 4 s.data
  let r ← expectChar '-' r
  let (mo, r) ← parseFixedNat 2 r
  let r ← expectChar '-' r
  let (d, r) ← parseFixedNat 2 r
  let r ← expectChar 'T' r
  let (h, r) ← parseFixedNat 2 r
  let r ← expectChar ':' r
  let (mi, r) ← parseFixedNat 2 r
  let r ← expectChar ':' r
  let (se, r) ← parseFixedNat 2 r
  let (us, r) ← (match r with
    | [] => some (0, ([] : List Char))
    | '.' :: r2 => parseFixedNat 6 r2
    | _ => none)
  match r with
  | [] =>
    if dateFieldsOK y mo d h mi se us then some ⟨y, mo, d, h, mi, se, us⟩ else none
  | _ => none

/-- A `DateTime` that the Python `datetime` constructor would accept. -/
def DateTime.valid (d : DateTime) : Prop :=
  dateFieldsOK d.year d.month d.day d.hour d.minute d.second d.microsecond

instance (d : DateTime) : Decidable d.valid := by
  unfold DateTime.valid; infer_instance

lemma natDigitsF_fuel (f₁ f₂ n : Nat) (h₁ : n < f₁) (h₂ : n < f₂) :
    natDigitsF f₁ n = natDigitsF f₂ n := by
  induction n using Nat.strong_induction_on generalizing f₁ f₂ with
  | _ n ih =>
    obtain ⟨g₁, rfl⟩ : ∃ g, f₁ = g + 1 := ⟨f₁ - 1, by omega⟩
    obtain ⟨g₂, rfl⟩ : ∃ g, f₂ = g + 1 := ⟨f₂ - 1, by omega⟩
    simp only [natDigitsF]
    by_cases hn : n < 10
    · simp [hn]
    · simp only [if_neg hn]
      have hd : n / 10 < n := Nat.div_lt_self (by omega) (by omega)
      rw [ih (n / 10) hd g₁ g₂ (show n / 10 < g₁ by omega) (show n / 10 < g₂ by omega)]

lemma natDigits_eq (n : Nat) :
    natDigits n = if n < 10 then [Char.ofNat (48 + n)]
      else natDigits (n / 10) ++ [Char.ofNat (48 + n % 10)] := by
  by_cases hn : n < 10
  · simp [natDigits, natDigitsF, hn]
  · rw [if_neg hn]
    show natDigitsF (n + 1) n = _
    simp only [natDigitsF, if_neg hn]
    have hd : n / 10 < n := Nat.div_lt_self (by omega) (by omega)
    rw [natDigitsF_fuel n (n / 10 + 1) (n / 10) (by omega) (Nat.lt_succ_self _)]
    rfl

lemma isDigitChar_ofNat : ∀ k < 10, isDigitChar (Char.ofNat (48 + k)) = true := by
  decide

lemma digitVal_ofNat : ∀ k < 10, digitVal (Char.ofNat (48 + k)) = k := by
  decide

lemma natDigits_all_digit (n : Nat) : ∀ c ∈ natDigits n, isDigitChar c = true := by
  induction n using Nat.strong_induction_on with
  | _ n ih =>
    rw [natDigits_eq]
    by_cases hn : n < 10
    · simp only [if_pos hn, List.mem_singleton]
      rintro c rfl
      exact isDigitChar_ofNat n hn
    · simp only [if_neg hn, List.mem_append, List.mem_singleton]
      rintro c (hc | rfl)
      · exact ih (n / 10) (Nat.div_lt_self (by omega) (by omega)) c hc
      · exact isDigitChar_ofNat (n % 10) (by omega)

lemma natDigits_length_le (w n : Nat) (hw : 1 ≤ w) (h : n < 10 ^ w) :
    (natDigits n).length ≤ w := by
  induction w generalizing n with
  | zero => omega
  | succ w ih =>
    rw [natDigits_eq]
    by_cases hn : n < 10
    · simp only [if_pos hn, List.length_singleton]
      omega
    · rw [if_neg hn]
      have hw0 : 1 ≤ w := by
        rcases Nat.eq_zero_or_pos w with rfl | h1
        · rw [pow_one] at h; omega
        · exact h1
      have hdiv : n / 10 < 10 ^ w := by
        rw [Nat.div_lt_iff_lt_mul (by omega)]
        calc n < 10 ^ (w + 1) := h
          _ = 10 ^ w * 10 := by ring
      have := ih (n / 10) hw0 hdiv
      simp only [List.length_append, List.length_singleton]
      omega

lemma valDigits_append_one (l : List Char) (c : Char) :
    valDigits (l ++ [c]) = valDigits l * 10 + digitVal c := by
  simp [valDigits, List.foldl_append]

lemma valDigits_natDigits (n : Nat) : valDigits (natDigits n) = n := by
  induction n using Nat.strong_induction_on with
  | _ n ih =>
    rw [natDigits_eq]
    by_cases hn : n < 10
    · rw [if_pos hn]
      have h1 : valDigits [Char.ofNat (48 + n)] = digitVal (Char.ofNat (48 + n)) := by
        simp [valDigits]
      rw [h1, digitVal_ofNat n hn]
    · rw [if_neg hn, valDigits_append_one,
        ih (n / 10) (Nat.div_lt_self (by omega) (by omega)),
        digitVal_ofNat (n % 10) (by omega)]
      omega

lemma valDigits_cons_zero (l : List Char) : valDigits ('0' :: l) = valDigits l := by
  have h0 : digitVal '0' = 0 := by decide
  simp [valDigits, h0]

lemma valDigits_replicate_zero (k : Nat) (l : List Char) :
    valDigits (List.replicate k '0' ++ l) = valDigits l := by
  induction k with
  | zero => simp
  | succ k ih => rw [List.replicate_succ, List.cons_append, valDigits_cons_zero, ih]

lemma padNat_length (w n : Nat) (hw : 1 ≤ w) (h : n < 10 ^ w) :
    (padNat w n).length = w := by
  have := natDigits_length_le w n hw h
  simp only [padNat, List.length_append, List.length_replicate]
  omega

lemma parseFixedNat_pad (w n : Nat) (rest : List Char) (hw : 1 ≤ w) (h : n < 10 ^ w) :
    parseFixedNat w (padNat w n ++ rest) = some (n, rest) := by
  have hlen := padNat_length w n hw h
  have htake : (padNat w n ++ rest).take w = padNat w n := List.take_left' hlen
  have hdrop : (padNat w n ++ rest).drop w = rest := List.drop_left' hlen
  have hall : (padNat w n).all isDigitChar = true := by
    rw [List.all_eq_true]
    intro c hc
    simp only [padNat, List.mem_append, List.mem_replicate] at hc
    rcases hc with ⟨_, rfl⟩ | hc
    · decide
    · exact natDigits_all_digit n c hc
  have hval : valDigits (padNat w n) = n := by
    rw [padNat, valDigits_replicate_zero, valDigits_natDigits]
  simp [parseFixedNat, htake, hdrop, hlen, hall, hval]

lemma daysInMonth_le_31 (y m : Nat) : daysInMonth y m ≤ 31 := by
  unfold daysInMonth
  split
  · split <;> omega
  · split <;> omega

set_option maxHeartbeats 2000000 in
lemma parseIso_components (y mo dd hh mi se us : Nat)
    (h : dateFieldsOK y mo dd hh mi se us) :
    parseIso (String.mk (padNat 4 y ++ ('-' :: (padNat 2 mo ++ ('-' :: (padNat 2 dd ++
      ('T' :: (padNat 2 hh ++ (':' :: (padNat 2 mi ++ (':' :: (padNat 2 se ++
      (if us = 0 then [] else '.' :: padNat 6 us))))))))))))) =
      some ⟨y, mo, dd, hh, mi, se, us⟩ := by
  obtain ⟨hy1, hy2, hmo1, hmo2, hd1, hd2, hh2, hmi2, hse2, hus2⟩ := h
  unfold parseIso
  dsimp only
  rw [parseFixedNat_pad 4 y _ (by omega) (by omega)]
  simp only [Option.bind_eq_bind, Option.some_bind, expectChar, if_true]
  rw [parseFixedNat_pad 2 mo _ (by omega) (by omega)]
  simp only [Option.some_bind, expectChar, if_true]
  rw [parseFixedNat_pad 2 dd _ (by omega) (by have := daysInMonth_le_31 y mo; omega)]
  simp only [Option.some_bind, expectChar, if_true]
  rw [parseFixedNat_pad 2 hh _ (by omega) (by omega)]
  simp only [Option.some_bind, expectChar, if_true]
  rw [parseFixedNat_pad 2 mi _ (by omega) (by omega)]
  simp only [Option.some_bind, expectChar, if_true]
  rw [parseFixedNat_pad 2 se _ (by omega) (by omega)]
  simp only [Option.some_bind, expectChar, if_true]
  by_cases hus : us = 0
  · subst hus
    have hok : dateFieldsOK y mo dd hh mi se 0 :=
      ⟨hy1, hy2, hmo1, hmo2, hd1, hd2, hh2, hmi2, hse2, by omega⟩
    simp [hok]
  · rw [if_neg hus]
    have hfin : parseFixedNat 6 (padNat 6 us) = some (us, []) := by
      have h6 : padNat 6 us = padNat 6 us ++ [] := (List.append_nil _).symm
      rw [h6]
      exact parseFixedNat_pad 6 us [] (by omega) (by omega)
    have hok : dateFieldsOK y mo dd hh mi se us :=
      ⟨hy1, hy2, hmo1, hmo2, hd1, hd2, hh2, hmi2, hse2, hus2⟩
    simp [hfin, hok]

lemma parseIso_printIso (d : DateTime) (h : d.valid) : parseIso (printIso d) = some d := by
  obtain ⟨y, mo, dd, hh, mi, se, us⟩ := d
  exact parseIso_components y mo dd hh mi se us h

/-! ### `validate_hash` and the strings accepted by Python's `int(s, 16)` -/

/-- Hexadecimal digit (ASCII) as accepted by `int(s, 16)`. -/
def isHexDigit16 (c : Char) : Bool :=
  ('0' ≤ c ∧ c ≤ '9') ∨ ('a' ≤ c ∧ c ≤ 'f') ∨ ('A' ≤ c ∧ c ≤ 'F')

/-- ASCII whitespace as skipped around the digits by `int(s, 16)` (a
slightly smaller class than `str.strip`'s: the `\x1c`–`\x1f` separators are
not accepted there). -/
def isIntSpace (c : Char) : Bool :=
  c = ' ' ∨ c = '\t' ∨ c = '\n' ∨ c = '\r' ∨ c = '\x0c' ∨ c = '\x0b'

/-- Tail of a hex-digit run: further digits, with single underscores allowed
only between digits. -/
def hexTail : List Char → Bool
  | [] => true
  | c :: rest =>
    if c = '_' then
      match rest with
      | [] => false
      | d :: rest2 => isHexDigit16 d && hexTail rest2
    else
      isHexDigit16 c && hexTail rest

/-- A nonempty hex-digit run with single underscores allowed between digits. -/
def hexRun : List Char → Bool
  | [] => false
  | c :: rest => isHexDigit16 c && hexTail rest

/-- After a `0x`/`0X` base prefix a single underscore may directly precede
the first digit. -/
def afterHexPrefix : List Char → Bool
  | [] => false
  | c :: rest => if c = '_' then hexRun rest else hexRun (c :: rest)

/-- The strings accepted by Python's `int(s, 16)` (ASCII fragment): optional
surrounding whitespace, an optional sign, an optional `0x`/`0X` prefix, then
a nonempty hex-digit run with single underscores between digits. -/
def int16Accepts (l : List Char) : Bool :=
  let l1 := l.dropWhile isIntSpace
  let l2 := (l1.reverse.dropWhile isIntSpace).reverse
  let body := match l2 with
    | [] => ([] : List Char)
    | c :: rest => if c = '+' ∨ c = '-' then rest else c :: rest
  match body with
  | c0 :: c1 :: rest =>
    if c0 = '0' ∧ (c1 = 'x' ∨ c1 = 'X') then afterHexPrefix rest
    else hexRun (c0 :: c1 :: rest)
  | rest => hexRun rest

/-- `validate_hash` from `src/utils/hash_utils.py`: non-empty, exactly 64
characters, and `int(hash_string, 16)` succeeds. -/
def validate_hash (hash_string : String) : Bool :=
  if hash_string = "" then false
  else if hash_string.length ≠ 64 then false
  else int16Accepts hash_string.data

/-! ### JSON values, Python `dict`/`in`/`[]` semantics -/

/-- JSON values (the image of `json.load`). -/
inductive Json where
  | null : Json
  | bool (b : Bool) : Json
  | num (q : ℚ) : Json
  | str (s : String) : Json
  | arr (elems : List Json) : Json
  | obj (entries : List (String × Json)) : Json

/-- First-match lookup in a Python-dict association list. -/
def dictGet : List (String × Json) → String → Option Json
  | [], _ => none
  | (k, v) :: rest, key => if k = key then some v else dictGet rest key

/-- Python `d[k] = v`: replace the value in place, or append a new entry. -/
def dictSet : List (String × Json) → String → Json → List (String × Json)
  | [], key, v => [(key, v)]
  | (k, w) :: rest, key, v =>
    if k = key then (k, v) :: rest else (k, w) :: dictSet rest key v

/-- Python exceptions relevant to the cache layer (`CacheError` is the
project's own exception from `src/core/exceptions.py`). -/
inductive PyErr where
  | valueError (msg : String)
  | cacheError (msg : String)
  | typeError
  | keyError
  | attributeError
  | validationError (msg : String)
deriving DecidableEq

/-- `needle` starts the list `hay`. -/
def startsWithL : List Char → List Char → Bool
  | [], _ => true
  | _ :: _, [] => false
  | c :: cs, d :: ds => c = d && startsWithL cs ds

/-- Python substring test `needle in hay` for strings. -/
def substringIn (needle : List Char) : List Char → Bool
  | [] => needle.isEmpty
  | d :: rest => startsWithL needle (d :: rest) || substringIn needle rest

/-- Python `container.get(key, default)`: only `dict` has `.get`; any other
JSON value raises `AttributeError`. -/
def jsonGetDefault (j : Json) (key : String) (dflt : Json) : Except PyErr Json :=
  match j with
  | .obj entries => .ok ((dictGet entries key).getD dflt)
  | _ => .error .attributeError

/-- Python `key in container` for a string key: key membership on `dict`,
element membership on `list`, substring test on `str`, `TypeError` otherwise. -/
def jsonContains (j : Json) (key : String) : Except PyErr Bool :=
  match j with
  | .obj entries => .ok (dictGet entries key).isSome
  | .arr elems => .ok (elems.any (fun e => match e with
      | Json.str s => s = key
      | _ => false))
  | .str s => .ok (substringIn key.data s.data)
  | _ => .error .typeError

/-- Python `container[key]` for a string key: `dict` lookup (`KeyError` when
absent); `TypeError` on every other JSON value. -/
def jsonGetItem (j : Json) (key : String) : Except PyErr Json :=
  match j with
  | .obj entries =>
    match dictGet entries key with
    | some v => .ok v
    | none => .error .keyError
  | _ => .error .typeError

/-- A JSON value coerced to the entries of a `dict` (pydantic `Dict[str, Any]`
field validation: a non-dict raises a `ValidationError`, a `ValueError`). -/
def jsonAsObj : Json → Except PyErr (List (String × Json))
  | .obj entries => .ok entries
  | _ => .error (.valueError "validation error")

/-- A JSON value coerced to `str` (pydantic `str` field validation). -/
def jsonAsStr : Json → Except PyErr String
  | .str s => .ok s
  | _ => .error (.valueError "validation error")

/-! ### The schema cache (`src/services/cache_service.py`)

The two files owned by `SchemaCache` are modelled explicitly; `OSError` /
permission failures are outside the model (the sandboxed filesystem either
has a file or does not). -/

/-- One disk file as the cache layer observes it: absent
(`FileNotFoundError` on read), present but not decodable as JSON
(`json.JSONDecodeError` on read), or decodable to a JSON value. -/
inductive FileContent where
  | missing
  | notJson
  | jsonVal (j : Json)

/-- `path.exists()` for a modelled file slot. -/
def fileExists : FileContent → Bool
  | .missing => false
  | _ => true

/-- The file pair at `CACHE_FILE_PATH` / `CACHE_BACKUP_PATH`. -/
structure CacheState where
  primary : FileContent
  backup : FileContent

/-- Read failure kinds of `read_json_file`. -/
inductive ReadErr where
  | fileNotFound
  | jsonDecodeError
deriving DecidableEq

/-- `read_json_file` from `src/utils/file_operations.py`. -/
def read_json_file : FileContent → Except ReadErr Json
  | .missing => .error .fileNotFound
  | .notJson => .error .jsonDecodeError
  | .jsonVal j => .ok j

/-- `write_json_file(path, data, create_backup)` on the cache-file pair:
when `create_backup` and the primary file exists, its content is first
copied to the backup file; then the new JSON replaces the primary file. -/
def write_json_file (st : CacheState) (data : Json) (create_backup : Bool) : CacheState :=
  { primary := FileContent.jsonVal data,
    backup := if create_backup && fileExists st.primary then st.primary else st.backup }

/-- `GeneratedSchema` from `src/api/models.py`.  `fields_schema` is a
`Dict[str, Any]`, modelled as a JSON object's entry list (every schema this
program stores came from parsed provider JSON). -/
structure GeneratedSchema where
  description_hash : String
  fields_schema : List (String × Json)
  created_at : DateTime
  domain : String

/-- The JSON entry `save_schema` stores under a key. -/
def entryJson (schema : GeneratedSchema) : Json :=
  Json.obj [("description_hash", Json.str schema.description_hash),
            ("fields_schema", Json.obj schema.fields_schema),
            ("created_at", Json.str (printIso schema.created_at)),
            ("domain", Json.str schema.domain)]

/-- Reconstruction `GeneratedSchema(...)` from the JSON stored under a key,
as performed by `get_cached_schema` / `_recover_from_backup`: `KeyError` for
a missing entry key, `TypeError` when `fromisoformat` gets a non-string,
`ValueError` when the timestamp does not parse or pydantic validation
fails. -/
def schemaFromJson (schema_data : Json) : Except PyErr GeneratedSchema := do
  let dh ← jsonGetItem schema_data "description_hash"
  let dhS ← jsonAsStr dh
  let fs ← jsonGetItem schema_data "fields_schema"
  let fsO ← jsonAsObj fs
  let ca ← jsonGetItem schema_data "created_at"
  let caS ← (match ca with
    | Json.str s => Except.ok s
    | _ => Except.error PyErr.typeError)
  let caD ← (match parseIso caS with
    | some d => Except.ok d
    | none => Except.error (PyErr.valueError "Invalid isoformat string"))
  let dm ← jsonGetItem schema_data "domain"
  let dmS ← jsonAsStr dm
  pure ⟨dhS, fsO, caD, dmS⟩

/-- The shared lookup body of `get_cached_schema` / `_recover_from_backup`:
`schemas = data.get("schemas", {})`, the `in` test, subscripting, and
reconstruction. -/
def lookupSchema (cache_data : Json) (description_hash : String) :
    Except PyErr (Option GeneratedSchema) := do
  let schemas ← jsonGetDefault cache_data "schemas" (Json.obj [])
  let mem ← jsonContains schemas description_hash
  if mem then
    let schema_data ← jsonGetItem schemas description_hash
    let s ← schemaFromJson schema_data
    pure (some s)
  else
    pure none

/-- `SchemaCache._recover_from_backup`: a missing backup file reports
absence; `FileNotFoundError`/`JSONDecodeError`/`OSError` while reading are
swallowed to `None`; any other exception propagates. -/
def recover_from_backup (st : CacheState) (description_hash : String) :
    Except PyErr (Option GeneratedSchema) :=
  match st.backup with
  | .missing => .ok none
  | .notJson => .ok none
  | .jsonVal backup_data => lookupSchema backup_data description_hash

/-- `SchemaCache.get_cached_schema`: key validation first (`ValueError` on a
key `validate_hash` rejects); a primary read failure falls back to
`_recover_from_backup`; `KeyError`/`ValueError`/`TypeError` during
reconstruction become `CacheError`; `AttributeError` propagates. -/
def get_cached_schema (st : CacheState) (description_hash : String) :
    Except PyErr (Option GeneratedSchema) :=
  if ¬ validate_hash description_hash then
    .error (.valueError ("Invalid hash format: " ++ description_hash))
  else
    match read_json_file st.primary with
    | .error _ => recover_from_backup st description_hash
    | .ok cache_data =>
      match lookupSchema cache_data description_hash with
      | .ok r => .ok r
      | .error (.valueError _) => .error (.cacheError "Invalid cache data format")
      | .error .typeError => .error (.cacheError "Invalid cache data format")
      | .error .keyError => .error (.cacheError "Invalid cache data format")
      | .error e => .error e

/-- `SchemaCache._recreate_cache_with_schema` (recovery path of
`save_schema`); `nowIso` is `datetime.now().isoformat()` at write time. -/
def recreate_cache_with_schema (st : CacheState) (nowIso : String)
    (description_hash : String) (schema : GeneratedSchema) : CacheState × Bool :=
  let new_cache := Json.obj [
    ("version", Json.str "1.0"),
    ("created_at", Json.str nowIso),
    ("schemas", Json.obj [(description_hash, entryJson schema)]),
    ("metadata", Json.obj [("total_schemas", Json.num 1),
                           ("last_updated", Json.str nowIso)])]
  (write_json_file st new_cache false, true)

/-- `SchemaCache.save_schema`: key validation first; a primary read failure
recreates the cache around the single schema; otherwise the entry is
assigned into `cache_data["schemas"]`, the metadata count and timestamp are
updated, and the file is rewritten with a backup of the previous content.
`KeyError`/`TypeError` from the subscripting are not caught and propagate. -/
def save_schema (st : CacheState) (nowIso : String) (description_hash : String)
    (schema : GeneratedSchema) : Except PyErr (CacheState × Bool) :=
  if ¬ validate_hash description_hash then
    .error (.valueError ("Invalid hash format: " ++ description_hash))
  else
    match read_json_file st.primary with
    | .error _ => .ok (recreate_cache_with_schema st nowIso description_hash schema)
    | .ok cache_data => do
      let ce ← (match cache_data with
        | Json.obj ce => Except.ok ce
        | _ => Except.error PyErr.typeError)
      let schemas ← (match dictGet ce "schemas" with
        | some v => Except.ok v
        | none => Except.error PyErr.keyError)
      let schemasO ← (match schemas with
        | Json.obj e => Except.ok e
        | _ => Except.error PyErr.typeError)
      let schemas2 := dictSet schemasO description_hash (entryJson schema)
      let ce2 := dictSet ce "schemas" (Json.obj schemas2)
      let md ← (match dictGet ce2 "metadata" with
        | some v => Except.ok v
        | none => Except.error PyErr.keyError)
      let mdO ← (match md with
        | Json.obj e => Except.ok e
        | _ => Except.error PyErr.typeError)
      let md2 := dictSet (dictSet mdO "total_schemas" (Json.num schemas2.length))
        "last_updated" (Json.str nowIso)
      let ce3 := dictSet ce2 "metadata" (Json.obj md2)
      pure (write_json_file st (Json.obj ce3) true, true)

/-- `ensure_file_exists(path, default)` on the primary cache file: if the
file exists (in any state) nothing happens; otherwise the default content is
written without a backup copy. -/
def ensure_file_exists (st : CacheState) (default_content : Json) : CacheState :=
  match st.primary with
  | .missing => write_json_file st default_content false
  | _ => st

/-- `SchemaCache._initialize_cache`: `ensure_file_exists` with the default
empty cache structure. -/
def initialize_cache (st : CacheState) (nowIso : String) : CacheState :=
  ensure_file_exists st (Json.obj [
    ("version", Json.str "1.0"),
    ("created_at", Json.str nowIso),
    ("schemas", Json.obj []),
    ("metadata", Json.obj [("total_schemas", Json.num 0),
                           ("last_updated", Json.str nowIso)])])

/-- `SchemaCache.clear_cache`: calls `_initialize_cache` and returns `True`
(the `OSError` branch is outside this model). -/
def clear_cache (st : CacheState) (nowIso : String) : CacheState × Bool :=
  (initialize_cache st nowIso, true)

lemma dictGet_dictSet_self (l : List (String × Json)) (k : String) (v : Json) :
    dictGet (dictSet l k v) k = some v := by
  induction l with
  | nil => simp [dictSet, dictGet]
  | cons p rest ih =>
    obtain ⟨k0, v0⟩ := p
    by_cases hk : k0 = k
    · subst hk
      simp [dictSet, dictGet]
    · simp [dictSet, dictGet, hk, ih]

lemma dictGet_dictSet_of_ne (l : List (String × Json)) (k k2 : String) (v : Json)
    (h : k ≠ k2) : dictGet (dictSet l k v) k2 = dictGet l k2 := by
  induction l with
  | nil => simp [dictSet, dictGet, h]
  | cons p rest ih =>
    obtain ⟨k0, v0⟩ := p
    by_cases hk : k0 = k
    · subst hk
      simp [dictSet, dictGet, h]
    · simp [dictSet, dictGet, hk, ih]

lemma schemaFromJson_entryJson (S : GeneratedSchema) (h : S.created_at.valid) :
    schemaFromJson (entryJson S) = Except.ok S := by
  obtain ⟨dh, fs, ca, dm⟩ := S
  simp only [DateTime.valid] at h
  simp [schemaFromJson, entryJson, jsonGetItem, dictGet, jsonAsStr, jsonAsObj,
    Bind.bind, Except.bind, Functor.map, Except.map,
    parseIso_printIso ⟨ca.year, ca.month, ca.day, ca.hour, ca.minute, ca.second,
      ca.microsecond⟩ h]
  rfl

/-- C2: for every key the validator accepts and every schema (with a
creation timestamp the `datetime` constructor could produce), on a
well-formed cache state `save_schema` succeeds returning `True`, and
`get_cached_schema` with the same key on the resulting state returns a
schema equal in all fields to the one stored. -/
theorem c2_put_get_round_trip (K nowIso : String) (S : GeneratedSchema)
    (st : CacheState) (ce schemas md : List (String × Json))
    (hv : validate_hash K = true)
    (hp : st.primary = FileContent.jsonVal (Json.obj ce))
    (hs : dictGet ce "schemas" = some (Json.obj schemas))
    (hm : dictGet ce "metadata" = some (Json.obj md))
    (hdate : S.created_at.valid) :
    ∃ st2 : CacheState, save_schema st nowIso K S = Except.ok (st2, true) ∧
      get_cached_schema st2 K = Except.ok (some S) := by
  have hne : ("metadata" : String) ≠ "schemas" := by decide
  set schemas2 := dictSet schemas K (entryJson S) with hschemas2
  set ce2 := dictSet ce "schemas" (Json.obj schemas2) with hce2
  have hmd2 : dictGet ce2 "metadata" = some (Json.obj md) := by
    rw [hce2, dictGet_dictSet_of_ne _ _ _ _ (by decide), hm]
  set md2 := dictSet (dictSet md "total_schemas" (Json.num schemas2.length))
    "last_updated" (Json.str nowIso) with hmd2def
  set ce3 := dictSet ce2 "metadata" (Json.obj md2) with hce3
  refine ⟨write_json_file st (Json.obj ce3) true, ?_, ?_⟩
  · simp only [save_schema, hv, not_true_eq_false, if_false, hp, read_json_file]
    simp [hs, hmd2, Bind.bind, Except.bind]
    rfl
  · have hget3 : dictGet ce3 "schemas" = some (Json.obj schemas2) := by
      rw [hce3, dictGet_dictSet_of_ne _ _ _ _ hne, hce2, dictGet_dictSet_self]
    simp only [get_cached_schema, hv, not_true_eq_false, if_false, write_json_file,
      read_json_file]
    have hlook : dictGet schemas2 K = some (entryJson S) := by
      rw [hschemas2]
      exact dictGet_dictSet_self _ _ _
    simp [lookupSchema, jsonGetDefault, hget3, jsonContains, hlook,
      jsonGetItem, Bind.bind, Except.bind,
      schemaFromJson_entryJson S hdate]
    rfl

/-! ### Concrete fixtures used by witnesses -/

/-- A 64-character lowercase-hex key. -/
def sampleKey : String :=
  "aaaaaaaaaaaaaaaaaaaaaaaaaaaaaaaaaaaaaaaaaaaaaaaaaaaaaaaaaaaaaaaa"

/-- A 64-character key that is accepted by `int(s, 16)` but is not a
hexadecimal string (it begins with a sign). -/
def badKey : String :=
  "+aaaaaaaaaaaaaaaaaaaaaaaaaaaaaaaaaaaaaaaaaaaaaaaaaaaaaaaaaaaaaaa"

/-- A concrete timestamp the `datetime` constructor accepts. -/
def sampleDate : DateTime := ⟨2024, 5, 17, 12, 30, 45, 123456⟩

/-- A concrete schema. -/
def sampleSchema : GeneratedSchema :=
  ⟨sampleKey, [("name", Json.obj [("faker_method", Json.str "name")])],
   sampleDate, "general"⟩

/-- The metadata entries of a fresh cache file. -/
def sampleMeta : List (String × Json) :=
  [("total_schemas", Json.num 0), ("last_updated", Json.str "2024-01-01T00:00:00")]

/-- The entries of a fresh cache file (what `_initialize_cache` writes). -/
def sampleEntries : List (String × Json) :=
  [("version", Json.str "1.0"), ("created_at", Json.str "2024-01-01T00:00:00"),
   ("schemas", Json.obj []), ("metadata", Json.obj sampleMeta)]

/-- A fresh cache state: initialized primary file, no backup yet. -/
def sampleState : CacheState :=
  ⟨FileContent.jsonVal (Json.obj sampleEntries), FileContent.missing⟩

/-- C2 witness: the round trip at a fresh cache state with concrete key and
schema. -/
theorem c2_witness :
    (validate_hash sampleKey = true ∧
     sampleState.primary = FileContent.jsonVal (Json.obj sampleEntries) ∧
     dictGet sampleEntries "schemas" = some (Json.obj []) ∧
     dictGet sampleEntries "metadata" = some (Json.obj sampleMeta) ∧
     DateTime.valid sampleSchema.created_at) ∧
    (∃ st2 : CacheState,
      save_schema sampleState "2024-01-02T00:00:00" sampleKey sampleSchema =
        Except.ok (st2, true) ∧
      get_cached_schema st2 sampleKey = Except.ok (some sampleSchema)) :=
  ⟨⟨by decide, rfl, rfl, rfl, by decide⟩,
   c2_put_get_round_trip sampleKey "2024-01-02T00:00:00" sampleSchema sampleState
     sampleEntries [] sampleMeta (by decide) rfl rfl rfl (by decide)⟩

/-- C3 (amended): if the primary cache file is missing or its content cannot
be decoded as JSON, and the backup file holds a JSON object whose `schemas`
object has an entry under key `K` that reconstructs to a schema `S`, then
`get_cached_schema K` returns `S` via backup recovery. -/
theorem c3_backup_recovery (K : String) (st : CacheState)
    (be schemas : List (String × Json)) (entry : Json) (S : GeneratedSchema)
    (hv : validate_hash K = true)
    (hp : st.primary = FileContent.missing ∨ st.primary = FileContent.notJson)
    (hb : st.backup = FileContent.jsonVal (Json.obj be))
    (hbs : dictGet be "schemas" = some (Json.obj schemas))
    (hks : dictGet schemas K = some entry)
    (hparse : schemaFromJson entry = Except.ok S) :
    get_cached_schema st K = Except.ok (some S) := by
  have hre : recover_from_backup st K = Except.ok (some S) := by
    simp [recover_from_backup, hb, lookupSchema, jsonGetDefault, hbs, jsonContains,
      hks, jsonGetItem, hparse, Bind.bind, Except.bind]
    rfl
  rcases hp with hp | hp <;>
    simp [get_cached_schema, hv, hp, read_json_file, hre]

/-- The backup-file JSON used by the C3 witness and counterexample: a valid
cache holding the sample schema under the sample key. -/
def backupEntries : List (String × Json) :=
  [("version", Json.str "1.0"), ("created_at", Json.str "2024-01-01T00:00:00"),
   ("schemas", Json.obj [(sampleKey, entryJson sampleSchema)]),
   ("metadata", Json.obj [("total_schemas", Json.num 1),
                          ("last_updated", Json.str "2024-01-01T00:00:00")])]

/-- Primary not decodable as JSON, valid backup with the sample key. -/
def recoverableState : CacheState :=
  ⟨FileContent.notJson, FileContent.jsonVal (Json.obj backupEntries)⟩

/-- Primary decodes as JSON but is structurally invalid for a cache file (an
empty object: none of the required keys, `is_cache_healthy` would say
`False`); same valid backup. -/
def wrongShapeState : CacheState :=
  ⟨FileContent.jsonVal (Json.obj []), FileContent.jsonVal (Json.obj backupEntries)⟩

/-- C3 witness: recovery at the concrete unreadable-primary state. -/
theorem c3_witness :
    (validate_hash sampleKey = true ∧
     (recoverableState.primary = FileContent.missing ∨
      recoverableState.primary = FileContent.notJson) ∧
     recoverableState.backup = FileContent.jsonVal (Json.obj backupEntries) ∧
     dictGet backupEntries "schemas" =
       some (Json.obj [(sampleKey, entryJson sampleSchema)]) ∧
     dictGet [(sampleKey, entryJson sampleSchema)] sampleKey =
       some (entryJson sampleSchema) ∧
     schemaFromJson (entryJson sampleSchema) = Except.ok sampleSchema) ∧
    get_cached_schema recoverableState sampleKey = Except.ok (some sampleSchema) :=
  ⟨⟨by decide, Or.inr rfl, rfl, rfl, rfl, rfl⟩,
   c3_backup_recovery sampleKey recoverableState backupEntries
     [(sampleKey, entryJson sampleSchema)] (entryJson sampleSchema) sampleSchema
     (by decide) (Or.inr rfl) rfl rfl rfl rfl⟩

/-- C3, counterexample to the claim as stated: the primary file contains
structurally invalid cache content that *is* decodable JSON (the empty
object), the backup holds a valid cache with the key, yet `get_cached_schema`
reports absence without recovering from the backup. -/
theorem c3_counterexample_wrong_shape_primary :
    get_cached_schema wrongShapeState sampleKey = Except.ok none ∧
    recover_from_backup wrongShapeState sampleKey = Except.ok (some sampleSchema) :=
  ⟨rfl, rfl⟩

/-- C10: when the primary cache file exists — whatever its content —
`clear_cache` returns `True` and leaves the whole cache state unchanged. -/
theorem c10_clear_cache_frame (st : CacheState) (nowIso : String)
    (h : fileExists st.primary = true) :
    clear_cache st nowIso = (st, true) := by
  obtain ⟨primary, backup⟩ := st
  cases primary with
  | missing => exact absurd h (by simp [fileExists])
  | notJson => rfl
  | jsonVal j => rfl

/-- C10 witness: clearing the concrete fresh cache state changes nothing. -/
theorem c10_witness :
    fileExists sampleState.primary = true ∧
    clear_cache sampleState "2024-06-01T00:00:00" = (sampleState, true) :=
  ⟨rfl, c10_clear_cache_frame sampleState "2024-06-01T00:00:00" rfl⟩

/-! ### Lemmas about hex keys for C9 -/

lemma hex_ne_char {c : Char} (h : isHexDigit16 c = true) (d : Char)
    (hd : isHexDigit16 d = false) : c ≠ d := by
  intro hcd
  rw [hcd, hd] at h
  exact Bool.noConfusion h

lemma hex_not_intSpace {c : Char} (h : isHexDigit16 c = true) :
    isIntSpace c = false := by
  cases hc : isIntSpace c with
  | false => rfl
  | true =>
    exfalso
    simp only [isIntSpace, decide_eq_true_eq] at hc
    rcases hc with rfl | rfl | rfl | rfl | rfl | rfl <;> exact absurd h (by decide)

lemma hexTail_all {l : List Char} (h : ∀ c ∈ l, isHexDigit16 c = true) :
    hexTail l = true := by
  induction l with
  | nil => rfl
  | cons c rest ih =>
    have hc := h c (List.mem_cons_self _ _)
    have hne : c ≠ '_' := hex_ne_char hc '_' (by decide)
    rw [hexTail.eq_def]
    dsimp only
    rw [if_neg hne, hc, Bool.true_and]
    exact ih (fun x hx => h x (List.mem_cons_of_mem _ hx))

lemma hexRun_all {l : List Char} (hne : l ≠ []) (h : ∀ c ∈ l, isHexDigit16 c = true) :
    hexRun l = true := by
  cases l with
  | nil => exact absurd rfl hne
  | cons c rest =>
    simp only [hexRun, h c (List.mem_cons_self _ _), Bool.true_and]
    exact hexTail_all (fun x hx => h x (List.mem_cons_of_mem _ hx))

lemma dropWhile_eq_self_of_all {p : Char → Bool} {l : List Char}
    (h : ∀ c ∈ l, p c = false) : l.dropWhile p = l := by
  cases l with
  | nil => rfl
  | cons c rest => simp [List.dropWhile_cons, h c (List.mem_cons_self _ _)]

lemma int16Accepts_all_hex {l : List Char} (hne : l ≠ [])
    (h : ∀ c ∈ l, isHexDigit16 c = true) : int16Accepts l = true := by
  have hd1 : l.dropWhile isIntSpace = l :=
    dropWhile_eq_self_of_all (fun c hc => hex_not_intSpace (h c hc))
  have hd2 : (l.reverse.dropWhile isIntSpace).reverse = l := by
    rw [dropWhile_eq_self_of_all
      (fun c hc => hex_not_intSpace (h c (List.mem_reverse.mp hc))),
      List.reverse_reverse]
  unfold int16Accepts
  simp only [hd1, hd2]
  cases l with
  | nil => exact absurd rfl hne
  | cons c rest =>
    have hc := h c (List.mem_cons_self _ _)
    have hsign : ¬(c = '+' ∨ c = '-') := by
      rintro (rfl | rfl) <;> exact absurd hc (by decide)
    have hbody : (match c :: rest with
        | [] => ([] : List Char)
        | c :: rest => if c = '+' ∨ c = '-' then rest else c :: rest) = c :: rest := by
      dsimp only
      rw [if_neg hsign]
    rw [hbody]
    cases rest with
    | nil =>
      dsimp only
      exact hexRun_all (by simp) h
    | cons c1 rest2 =>
      have hc1 : isHexDigit16 c1 = true := h c1 (by simp)
      have h0 : ¬(c = '0' ∧ (c1 = 'x' ∨ c1 = 'X')) := by
        rintro ⟨-, rfl | rfl⟩ <;> exact absurd hc1 (by decide)
      dsimp only
      rw [if_neg h0]
      exact hexRun_all (by simp) h

lemma validate_hash_iff (K : String) :
    validate_hash K = true ↔ (K.length = 64 ∧ int16Accepts K.data = true) := by
  unfold validate_hash
  by_cases he : K = ""
  · subst he
    constructor
    · intro h
      simp at h
    · rintro ⟨h64, -⟩
      exact absurd h64 (by decide)
  · rw [if_neg he]
    by_cases hl : K.length = 64
    · simp [hl]
    · simp [hl]

/-- C9 (amended): both cache operations reject a key with a `ValueError` —
independently of the cache state, i.e. before the key indexes anything —
exactly when `validate_hash` rejects it; and `validate_hash` accepts exactly
the 64-character strings accepted by Python's base-16 integer parser.  Every
64-character string of hexadecimal digits is accepted, but acceptance is not
limited to hexadecimal strings (see the counterexample). -/
theorem c9_key_format_validation (K : String) :
    (validate_hash K = false →
      ∀ (st : CacheState) (S : GeneratedSchema) (nowIso : String),
        get_cached_schema st K =
          Except.error (PyErr.valueError ("Invalid hash format: " ++ K)) ∧
        save_schema st nowIso K S =
          Except.error (PyErr.valueError ("Invalid hash format: " ++ K))) ∧
    (validate_hash K = true ↔ K.length = 64 ∧ int16Accepts K.data = true) ∧
    ((K.length = 64 ∧ ∀ c ∈ K.data, isHexDigit16 c = true) →
      validate_hash K = true) := by
  refine ⟨?_, validate_hash_iff K, ?_⟩
  · intro h st S nowIso
    constructor
    · simp [get_cached_schema, h]
    · simp [save_schema, h]
  · rintro ⟨h64, hall⟩
    rw [validate_hash_iff]
    refine ⟨h64, int16Accepts_all_hex ?_ hall⟩
    intro hnil
    rw [show K.length = K.data.length from rfl, hnil] at h64
    exact absurd h64 (by decide)

/-- C9, counterexample to the claim as stated: a 64-character key beginning
with `'+'` is not a hexadecimal string, yet it passes `validate_hash`;
`get_cached_schema` treats it as an ordinary cache miss and `save_schema`
happily stores under it. -/
theorem c9_counterexample_plus_key :
    badKey.length = 64 ∧ isHexDigit16 '+' = false ∧ validate_hash badKey = true ∧
    get_cached_schema sampleState badKey = Except.ok none ∧
    (∃ st2 : CacheState,
      save_schema sampleState "2024-01-02T00:00:00" badKey sampleSchema =
        Except.ok (st2, true)) :=
  ⟨by decide, by decide, by decide, rfl, ⟨_, rfl⟩⟩

/-- C9 witness: the amended theorem applied at a concrete rejected key and a
concrete accepted key. -/
theorem c9_witness :
    validate_hash "zz" = false ∧
    (get_cached_schema sampleState "zz" =
       Except.error (PyErr.valueError ("Invalid hash format: " ++ "zz")) ∧
     save_schema sampleState "2024-01-02T00:00:00" "zz" sampleSchema =
       Except.error (PyErr.valueError ("Invalid hash format: " ++ "zz"))) ∧
    (sampleKey.length = 64 ∧ ∀ c ∈ sampleKey.data, isHexDigit16 c = true) ∧
    validate_hash sampleKey = true :=
  ⟨by decide,
   (c9_key_format_validation "zz").1 (by decide) sampleState sampleSchema
     "2024-01-02T00:00:00",
   ⟨by decide, by decide⟩,
   (c9_key_format_validation sampleKey).2.2 ⟨by decide, by decide⟩⟩

/-! ### Rate governor (`AnthropicSchemaGenerator`, `_check_rate_limits` /
`_record_request`)

Wall-clock instants (`time.time()` / `datetime.timestamp()`) are modelled as
rationals; calendar dates (`datetime.date`) as integer day ordinals.  The
configured ceilings are the environment defaults of `src/core/config.py`. -/

/-- `RATE_LIMIT_REQUESTS_PER_MINUTE` default. -/
def perMinuteCeiling : Nat := 3

/-- `RATE_LIMIT_REQUESTS_PER_DAY` default. -/
def perDayCeiling : Nat := 200

/-- The rate-limiting state of an `AnthropicSchemaGenerator` instance. -/
structure RateState where
  request_times : List ℚ
  daily_request_count : Nat
  last_reset_date : Int
deriving DecidableEq

/-- Denial reasons raised by `_check_rate_limits`. -/
inductive RateLimitReason where
  | daily
  | perMinute
deriving DecidableEq

/-- `_check_rate_limits` at the instant with date `d` and timestamp `t`:
reset the daily counter if the date advanced; raise the daily denial while
the counter is at the ceiling (before any pruning); otherwise prune the
request list to the trailing 60 seconds and raise the per-minute denial when
the pruned list is at the per-minute ceiling.  Returns the mutated state and
the denial, if any. -/
def check_rate_limits (s : RateState) (d : Int) (t : ℚ) :
    RateState × Option RateLimitReason :=
  let s1 := if d > s.last_reset_date then
    { s with daily_request_count := 0, last_reset_date := d } else s
  if s1.daily_request_count ≥ perDayCeiling then
    (s1, some RateLimitReason.daily)
  else
    let pruned := s1.request_times.filter (fun x => x > t - 60)
    if pruned.length ≥ perMinuteCeiling then
      ({ s1 with request_times := pruned }, some RateLimitReason.perMinute)
    else
      ({ s1 with request_times := pruned }, none)

/-- `_record_request` at instant `t`. -/
def record_request (s : RateState) (t : ℚ) : RateState :=
  { s with request_times := s.request_times ++ [t],
           daily_request_count := s.daily_request_count + 1 }

/-- One `checkAdmission` + `recordSuccess` cycle as `generate_schema`
performs it: the success is recorded only when the check admits. -/
def governorCycle (s : RateState) (d : Int) (t : ℚ) :
    RateState × Option RateLimitReason :=
  match check_rate_limits s d t with
  | (s1, none) => (record_request s1 t, none)
  | (s1, some r) => (s1, some r)

/-- The fresh state `__init__` creates on date `d0`. -/
def initialRateState (d0 : Int) : RateState := ⟨[], 0, d0⟩

/-- C4: with the per-minute ceiling of 3, four check+record cycles within
one second, starting from the fresh state, yield allow, allow, allow, deny
with the per-minute reason; the three successes each appended their instant
and incremented the daily counter, the denial recorded nothing; and
`_record_request` always appends the instant and increments the counter. -/
theorem c4_per_minute_window (d0 : Int) (t1 t2 t3 t4 : ℚ)
    (h12 : t1 ≤ t2) (h23 : t2 ≤ t3) (h34 : t3 ≤ t4) (hspan : t4 - t1 ≤ 1) :
    governorCycle (initialRateState d0) d0 t1 = (⟨[t1], 1, d0⟩, none) ∧
    governorCycle ⟨[t1], 1, d0⟩ d0 t2 = (⟨[t1, t2], 2, d0⟩, none) ∧
    governorCycle ⟨[t1, t2], 2, d0⟩ d0 t3 = (⟨[t1, t2, t3], 3, d0⟩, none) ∧
    governorCycle ⟨[t1, t2, t3], 3, d0⟩ d0 t4 =
      (⟨[t1, t2, t3], 3, d0⟩, some RateLimitReason.perMinute) ∧
    (∀ (s : RateState) (t : ℚ), record_request s t =
      ⟨s.request_times ++ [t], s.daily_request_count + 1, s.last_reset_date⟩) := by
  have k1 : t2 - 60 < t1 := by linarith
  have k2 : t3 - 60 < t1 := by linarith
  have k3 : t3 - 60 < t2 := by linarith
  have k4 : t4 - 60 < t1 := by linarith
  have k5 : t4 - 60 < t2 := by linarith
  have k6 : t4 - 60 < t3 := by linarith
  refine ⟨?_, ?_, ?_, ?_, fun s t => rfl⟩ <;>
    simp [governorCycle, check_rate_limits, record_request, initialRateState,
      perMinuteCeiling, perDayCeiling, k1, k2, k3, k4, k5, k6]

/-- C4 witness: the four cycles at concrete instants 0, ¼, ½, ¾ on day 0. -/
theorem c4_witness :
    ((0 : ℚ) ≤ 1/4 ∧ (1/4 : ℚ) ≤ 1/2 ∧ (1/2 : ℚ) ≤ 3/4 ∧ (3/4 : ℚ) - 0 ≤ 1) ∧
    (governorCycle (initialRateState 0) 0 0 = (⟨[0], 1, 0⟩, none) ∧
     governorCycle ⟨[0], 1, 0⟩ 0 (1/4) = (⟨[0, 1/4], 2, 0⟩, none) ∧
     governorCycle ⟨[0, 1/4], 2, 0⟩ 0 (1/2) = (⟨[0, 1/4, 1/2], 3, 0⟩, none) ∧
     governorCycle ⟨[0, 1/4, 1/2], 3, 0⟩ 0 (3/4) =
       (⟨[0, 1/4, 1/2], 3, 0⟩, some RateLimitReason.perMinute) ∧
     (∀ (s : RateState) (t : ℚ), record_request s t =
       ⟨s.request_times ++ [t], s.daily_request_count + 1, s.last_reset_date⟩)) :=
  ⟨⟨by norm_num, by norm_num, by norm_num, by norm_num⟩,
   c4_per_minute_window 0 0 (1/4) (1/2) (3/4)
     (by norm_num) (by norm_num) (by norm_num) (by norm_num)⟩

/-- C5 (amended): while the daily counter is at the ceiling on the stored
date, the check denies with the daily reason before any per-minute
processing, whatever the request list holds; at the first check on a later
date the daily counter is zeroed and the stored date advanced, after which
the check is allowed exactly when fewer than the per-minute ceiling of
recorded instants remain within the trailing 60 seconds. -/
theorem c5_daily_ceiling (s : RateState) (d d2 : Int) (t : ℚ)
    (hd : s.last_reset_date = d) (hcount : s.daily_request_count ≥ perDayCeiling)
    (hd2 : d2 > s.last_reset_date) :
    check_rate_limits s d t = (s, some RateLimitReason.daily) ∧
    (let pruned := s.request_times.filter (fun x => x > t - 60)
     check_rate_limits s d2 t =
       if pruned.length ≥ perMinuteCeiling then
         (⟨pruned, 0, d2⟩, some RateLimitReason.perMinute)
       else (⟨pruned, 0, d2⟩, none)) := by
  constructor
  · have hnd : ¬ d > s.last_reset_date := by omega
    simp [check_rate_limits, hnd, hcount]
  · have h200 : ¬ (0 ≥ perDayCeiling) := by decide
    simp only [check_rate_limits, if_pos hd2]
    simp [h200]

/-- C5, counterexample to the claim as stated: after 200 recorded requests
the first check on the next calendar day does reset the daily counter, but it
is *not* allowed — three requests recorded just before midnight still occupy
the per-minute window, so the check denies with the per-minute reason. -/
theorem c5_counterexample_midnight_window :
    check_rate_limits ⟨[863998/10, 863999/10, 1727999/20], 200, 0⟩ 1 (864002/10) =
      (⟨[863998/10, 863999/10, 1727999/20], 0, 1⟩, some RateLimitReason.perMinute) := by
  have h1 : ((864002 : ℚ)/10 - 60 < 863998/10) := by norm_num
  have h2 : ((864002 : ℚ)/10 - 60 < 863999/10) := by norm_num
  have h3 : ((864002 : ℚ)/10 - 60 < 1727999/20) := by norm_num
  simp [check_rate_limits, perDayCeiling, perMinuteCeiling, h1, h2, h3]

/-- C5 witness: the theorem at a concrete at-ceiling state. -/
theorem c5_witness :
    ((⟨[10], 200, 5⟩ : RateState).last_reset_date = 5 ∧
     (⟨[10], 200, 5⟩ : RateState).daily_request_count ≥ perDayCeiling ∧
     (6 : Int) > (⟨[10], 200, 5⟩ : RateState).last_reset_date) ∧
    (check_rate_limits ⟨[10], 200, 5⟩ 5 20 =
       (⟨[10], 200, 5⟩, some RateLimitReason.daily) ∧
     (let pruned := ([10] : List ℚ).filter (fun x => x > 20 - 60)
      check_rate_limits ⟨[10], 200, 5⟩ 6 20 =
        if pruned.length ≥ perMinuteCeiling then
          (⟨pruned, 0, 6⟩, some RateLimitReason.perMinute)
        else (⟨pruned, 0, 6⟩, none))) :=
  ⟨⟨rfl, by decide, by decide⟩,
   c5_daily_ceiling ⟨[10], 200, 5⟩ 5 6 20 rfl (by decide) (by decide)⟩

/-! ### Field resolution (`src/services/data_generator.py`)

The Faker library is an external collaborator: its attribute set
(`hasattr(self.faker, ...)`) is a parameter of the model, and resolved
generators are symbolic closures — invoking one calls the external
library/RNG.  Resolution itself is translated from the source.  Field
specifications are the JSON-derived Python values a provider schema can
contain (scalars and dictionaries). -/

/-- Python values appearing as field specifications (`Dict[str, Any]`). -/
inductive PyVal where
  | str (s : String)
  | int (n : Int)
  | pyBool (b : Bool)
  | pyNone
  | dict (entries : List (String × PyVal))

/-- Python `str()` of the scalar specification values (the non-dict branch
of `map_schema_to_faker`; a dict specification never reaches `str()`). -/
def pyStr : PyVal → String
  | .str s => s
  | .int n => toString n
  | .pyBool b => if b then "True" else "False"
  | .pyNone => "None"
  | .dict _ => "dict"

/-- Python truthiness (`if parameters:`). -/
def pyTruthy : PyVal → Bool
  | .str s => s ≠ ""
  | .int n => n ≠ 0
  | .pyBool b => b
  | .pyNone => false
  | .dict entries => ¬ entries.isEmpty

/-- Generator closures produced by resolution.  `fakerAttr m` is the bound
library method `self.faker.m`; `fakerLambda tag` is one of the hand-written
lambdas of `_init_faker_method_mapping` / `_get_fallback_generator`,
identified by its source tag; the two parameter wrappers mirror the
defensive `_call_with_parameters` wrapper (built-in path) and the plain
`**parameters` call (reflective path); `choice vals` is
`random.choice(vals)` over a fixed domain pool. -/
inductive Gen where
  | fakerAttr (method : String)
  | fakerLambda (tag : String)
  | callWithParams (base : Gen) (params : PyVal)
  | kwargs (method : String) (params : PyVal)
  | choice (vals : List PyVal)

/-- The `self.faker_methods` table of `_init_faker_method_mapping`. -/
def faker_methods : List (String × Gen) :=
  [("name", .fakerAttr "name"), ("first_name", .fakerAttr "first_name"),
   ("last_name", .fakerAttr "last_name"), ("full_name", .fakerAttr "name"),
   ("username", .fakerAttr "user_name"),
   ("email", .fakerAttr "email"), ("free_email", .fakerAttr "free_email"),
   ("company_email", .fakerAttr "company_email"),
   ("phone_number", .fakerAttr "phone_number"), ("phone", .fakerAttr "phone_number"),
   ("date", .fakerAttr "date"), ("past_date", .fakerLambda "past_date"),
   ("future_date", .fakerLambda "future_date"),
   ("date_between", .fakerLambda "date_between"),
   ("datetime", .fakerAttr "date_time"), ("time", .fakerAttr "time"),
   ("birth_date", .fakerLambda "birth_date"),
   ("random_int", .fakerLambda "random_int"),
   ("random_number", .fakerLambda "random_number"),
   ("float", .fakerLambda "float"), ("pyfloat", .fakerLambda "pyfloat"),
   ("pydecimal", .fakerLambda "pydecimal"), ("currency", .fakerLambda "currency"),
   ("price", .fakerLambda "price"),
   ("address", .fakerAttr "address"), ("street_address", .fakerAttr "street_address"),
   ("city", .fakerAttr "city"), ("state", .fakerAttr "state"),
   ("country", .fakerAttr "country"), ("postal_code", .fakerAttr "postcode"),
   ("zipcode", .fakerAttr "postcode"), ("postcode", .fakerAttr "postcode"),
   ("text", .fakerLambda "text"), ("sentence", .fakerAttr "sentence"),
   ("paragraph", .fakerLambda "paragraph"), ("word", .fakerAttr "word"),
   ("words", .fakerLambda "words"), ("catch_phrase", .fakerAttr "catch_phrase"),
   ("bs", .fakerAttr "bs"),
   ("company", .fakerAttr "company"), ("job", .fakerAttr "job"),
   ("company_suffix", .fakerAttr "company_suffix"),
   ("department", .fakerLambda "department"),
   ("url", .fakerAttr "url"), ("domain_name", .fakerAttr "domain_name"),
   ("ipv4", .fakerAttr "ipv4"), ("mac_address", .fakerAttr "mac_address"),
   ("uuid4", .fakerAttr "uuid4"), ("ssn", .fakerAttr "ssn"),
   ("ein", .fakerAttr "ein"),
   ("credit_card_number", .fakerAttr "credit_card_number"),
   ("iban", .fakerAttr "iban"),
   ("boolean", .fakerAttr "boolean"), ("pybool", .fakerAttr "pybool"),
   ("color_name", .fakerAttr "color_name"), ("hex_color", .fakerAttr "hex_color"),
   ("rgb_color", .fakerAttr "rgb_color")]

/-- Generic first-match association lookup. -/
def lookupStr {α : Type} : List (String × α) → String → Option α
  | [], _ => none
  | (k, v) :: rest, key => if k = key then some v else lookupStr rest key

/-- The `self.domain_values` pools of `_init_custom_domain_values`
(insertion order preserved). -/
def domain_values : List (String × List (String × List PyVal)) :=
  [("ecommerce",
    [("category", [.str "Electronics", .str "Clothing", .str "Books",
       .str "Home & Garden", .str "Sports", .str "Toys"]),
     ("brand", [.str "Apple", .str "Samsung", .str "Nike", .str "Adidas",
       .str "Sony", .str "Microsoft", .str "Amazon"]),
     ("rating", [.int 1, .int 2, .int 3, .int 4, .int 5]),
     ("status", [.str "Active", .str "Inactive", .str "Discontinued",
       .str "Coming Soon"]),
     ("product_type", [.str "Physical", .str "Digital", .str "Service",
       .str "Subscription"]),
     ("shipping_method", [.str "Standard", .str "Express", .str "Overnight",
       .str "Free Shipping"])]),
   ("healthcare",
    [("blood_type", [.str "A+", .str "A-", .str "B+", .str "B-", .str "AB+",
       .str "AB-", .str "O+", .str "O-"]),
     ("condition", [.str "Diabetes", .str "Hypertension", .str "Asthma",
       .str "Arthritis", .str "Heart Disease"]),
     ("treatment", [.str "Medication", .str "Physical Therapy", .str "Surgery",
       .str "Monitoring", .str "Lifestyle Change"]),
     ("insurance", [.str "Medicare", .str "Medicaid", .str "Private",
       .str "Uninsured", .str "VA Benefits"]),
     ("department", [.str "Cardiology", .str "Neurology", .str "Orthopedics",
       .str "Pediatrics", .str "Emergency"]),
     ("priority", [.str "Low", .str "Medium", .str "High", .str "Critical"])]),
   ("finance",
    [("account_type", [.str "Checking", .str "Savings", .str "Credit",
       .str "Investment", .str "Loan"]),
     ("transaction_type", [.str "Deposit", .str "Withdrawal", .str "Transfer",
       .str "Payment", .str "Fee"]),
     ("status", [.str "Pending", .str "Completed", .str "Failed",
       .str "Cancelled", .str "Processing"]),
     ("merchant_category", [.str "Gas Station", .str "Grocery Store",
       .str "Restaurant", .str "Online Purchase", .str "ATM"]),
     ("currency", [.str "USD", .str "EUR", .str "GBP", .str "CAD", .str "JPY"]),
     ("risk_level", [.str "Low", .str "Medium", .str "High", .str "Very High"])]),
   ("education",
    [("grade_level", [.str "Freshman", .str "Sophomore", .str "Junior",
       .str "Senior", .str "Graduate"]),
     ("subject", [.str "Mathematics", .str "Science", .str "English",
       .str "History", .str "Art", .str "Physical Education"]),
     ("degree", [.str "Bachelor", .str "Master", .str "PhD", .str "Associate",
       .str "Certificate"]),
     ("major", [.str "Computer Science", .str "Business", .str "Engineering",
       .str "Psychology", .str "Biology"]),
     ("semester", [.str "Fall", .str "Spring", .str "Summer", .str "Winter"]),
     ("grade", [.str "A+", .str "A", .str "A-", .str "B+", .str "B", .str "B-",
       .str "C+", .str "C", .str "C-", .str "D", .str "F"])]),
   ("general",
    [("gender", [.str "Male", .str "Female", .str "Non-binary",
       .str "Prefer not to say"]),
     ("marital_status", [.str "Single", .str "Married", .str "Divorced",
       .str "Widowed", .str "Separated"]),
     ("priority", [.str "Low", .str "Medium", .str "High", .str "Critical"]),
     ("status", [.str "Active", .str "Inactive", .str "Pending",
       .str "Suspended"]),
     ("language", [.str "English", .str "Spanish", .str "French", .str "German",
       .str "Chinese", .str "Japanese"]),
     ("timezone", [.str "PST", .str "EST", .str "CST", .str "MST", .str "UTC"])])]

/-- Python `category.split('_')`. -/
def splitUnd : List Char → List (List Char)
  | [] => [[]]
  | c :: rest =>
    let r := splitUnd rest
    if c = '_' then [] :: r
    else match r with
      | [] => [[c]]
      | w :: ws => (c :: w) :: ws

/-- The category test of `_get_domain_generator`: `category in field_lower`,
or any underscore-separated keyword of the category occurs in `field_lower`,
or (inside the hinted domain) `field_lower in category` — across all
domains the last test is equality instead. -/
def categoryMatchesField (fieldL : List Char) (category : String)
    (strictEq : Bool) : Bool :=
  substringIn category.data fieldL ||
  (splitUnd category.data).any (fun kw => substringIn kw fieldL) ||
  (if strictEq then fieldL = category.data else substringIn fieldL category.data)

/-- First category of a category list matching the field name. -/
def findInCategories (cats : List (String × List PyVal)) (fieldL : List Char)
    (strictEq : Bool) : Option (List PyVal) :=
  match cats with
  | [] => none
  | (cat, vals) :: rest =>
    if categoryMatchesField fieldL cat strictEq then some vals
    else findInCategories rest fieldL strictEq

/-- First loop of `_get_domain_generator`: the hint as a category key of any
domain, in domain order. -/
def lookupCategoryPool : List (String × List (String × List PyVal)) → String →
    Option (List PyVal)
  | [], _ => none
  | (_, cats) :: rest, hint =>
    match lookupStr cats hint with
    | some vals => some vals
    | none => lookupCategoryPool rest hint

/-- Third loop of `_get_domain_generator`: field-name pattern matching
across all domains. -/
def findAcrossDomains : List (String × List (String × List PyVal)) →
    List Char → Option (List PyVal)
  | [], _ => none
  | (_, cats) :: rest, fieldL =>
    match findInCategories cats fieldL true with
    | some vals => some vals
    | none => findAcrossDomains rest fieldL

/-- `_get_domain_generator(field_name, domain_hint)`. -/
def get_domain_generator (field_name : String) (domain_hint : String) :
    Option Gen :=
  let hintL := String.mk (domain_hint.data.map lowerChar)
  match lookupCategoryPool domain_values hintL with
  | some vals => some (Gen.choice vals)
  | none =>
    let fieldL := field_name.data.map lowerChar
    match (match lookupStr domain_values hintL with
           | some cats => findInCategories cats fieldL false
           | none => none) with
    | some vals => some (Gen.choice vals)
    | none =>
      match findAcrossDomains domain_values fieldL with
      | some vals => some (Gen.choice vals)
      | none => none

/-- `kw in field_lower` over a keyword list. -/
def containsAny (fieldL : List Char) (kws : List String) : Bool :=
  kws.any (fun kw => substringIn kw.data fieldL)

/-- `_get_fallback_generator(field_name)`: keyword classification of the
field name, defaulting to the generic word generator. -/
def get_fallback_generator (field_name : String) : Gen :=
  let f := field_name.data.map lowerChar
  if containsAny f ["name", "full_name", "customer_name"] then .fakerAttr "name"
  else if containsAny f ["first", "fname", "given"] then .fakerAttr "first_name"
  else if containsAny f ["last", "lname", "surname", "family"] then .fakerAttr "last_name"
  else if containsAny f ["email", "mail"] then .fakerAttr "email"
  else if containsAny f ["phone", "tel", "mobile"] then .fakerAttr "phone_number"
  else if containsAny f ["date", "birth", "created", "updated"] then
    .fakerLambda "fallback_past_date"
  else if containsAny f ["address", "street"] then .fakerAttr "address"
  else if substringIn "city".data f then .fakerAttr "city"
  else if containsAny f ["state", "province"] then .fakerAttr "state"
  else if containsAny f ["country", "nation"] then .fakerAttr "country"
  else if containsAny f ["zip", "postal"] then .fakerAttr "postcode"
  else if containsAny f ["id", "number", "num", "count"] then
    .fakerLambda "fallback_random_int"
  else if containsAny f ["price", "cost", "amount", "salary"] then
    .fakerLambda "fallback_price"
  else if containsAny f ["age", "year"] then .fakerLambda "fallback_age"
  else if containsAny f ["description", "comment", "note"] then
    .fakerLambda "fallback_text"
  else if containsAny f ["title", "subject"] then .fakerAttr "sentence"
  else if containsAny f ["company", "employer", "organization"] then
    .fakerAttr "company"
  else if containsAny f ["job", "position", "role"] then .fakerAttr "job"
  else if containsAny f ["active", "enabled", "valid", "is_"] then
    .fakerAttr "boolean"
  else .fakerLambda "fallback_word"

/-- `_get_field_generator(field_name, faker_method, parameters)`: built-in
table first (with the defensive parameter wrapper), then
`hasattr(self.faker, faker_method)` reflection (raising `TypeError` for a
non-string method name, as `hasattr` does; an unhashable dict raises the
same `TypeError` already at the table-membership test), then domain pools,
then the name-pattern fallback. -/
def get_field_generator (fakerAttrs : String → Bool) (field_name : String)
    (faker_method : PyVal) (parameters : PyVal) : Except PyErr Gen :=
  match faker_method with
  | .str m =>
    match lookupStr faker_methods m with
    | some base =>
      if pyTruthy parameters then .ok (Gen.callWithParams base parameters)
      else .ok base
    | none =>
      if fakerAttrs m then
        if pyTruthy parameters then .ok (Gen.kwargs m parameters)
        else .ok (Gen.fakerAttr m)
      else
        match get_domain_generator field_name m with
        | some g => .ok g
        | none => .ok (get_fallback_generator field_name)
  | _ => .error PyErr.typeError

/-- The per-field dispatch of `map_schema_to_faker`: a dict specification
contributes its `faker_method` (default `"word"`) and `parameters` (default
`{}`); any other value is coerced with `str()` and treated as the method
name. -/
def fieldSpecGenerator (fakerAttrs : String → Bool) (field_name : String) :
    PyVal → Except PyErr Gen
  | PyVal.dict entries =>
    get_field_generator fakerAttrs field_name
      ((lookupStr entries "faker_method").getD (PyVal.str "word"))
      ((lookupStr entries "parameters").getD (PyVal.dict []))
  | other =>
    get_field_generator fakerAttrs field_name (PyVal.str (pyStr other))
      (PyVal.dict [])

/-- `map_schema_to_faker(schema)`: resolve each field specification in
order.  The entry names are unique in any real call (the schema is a Python
dict). -/
def map_schema_to_faker (fakerAttrs : String → Bool) :
    List (String × PyVal) → Except PyErr (List (String × Gen))
  | [] => .ok []
  | (field_name, field_config) :: rest => do
    let g ← fieldSpecGenerator fakerAttrs field_name field_config
    let gs ← map_schema_to_faker fakerAttrs rest
    pure ((field_name, g) :: gs)

/-! ### Row synthesis (`DataGenerator.generate_data`) -/

/-- Values an external generator call can return (the shapes the
`isinstance` chain in `generate_data` distinguishes). -/
inductive GenValue where
  | str (s : String)
  | int (n : Int)
  | float (q : ℚ)
  | pyBool (b : Bool)
  | date (d : DateTime)
  | dateTime (d : DateTime)
  | decimal (q : ℚ)

/-- Serialization-safe cell values after conversion. -/
inductive CellValue where
  | str (s : String)
  | int (n : Int)
  | float (q : ℚ)
  | pyBool (b : Bool)

/-- `datetime.date.isoformat()`. -/
def printIsoDate (d : DateTime) : String :=
  String.mk (padNat 4 d.year ++ ('-' :: (padNat 2 d.month ++ ('-' :: padNat 2 d.day))))

/-- The `isinstance` conversions of `generate_data`: `date`/`datetime`
values become ISO text, `Decimal` values become floats, everything else is
stored unchanged. -/
def convertValue : GenValue → CellValue
  | .str s => .str s
  | .int n => .int n
  | .float q => .float q
  | .pyBool b => .pyBool b
  | .date d => .str (printIsoDate d)
  | .dateTime d => .str (printIso d)
  | .decimal q => .float q

/-- `SyntheticDataset` from `src/api/models.py`; a row is an ordered
field-name → value mapping. -/
structure SyntheticDataset where
  data : List (List (String × CellValue))
  row_count : Nat
  field_names : List String
  generation_time : ℚ
  domain : String

/-- The part of `GeneratedSchema` that `generate_data` consumes, with
Python field-specification values. -/
structure PySchema where
  fields_schema : List (String × PyVal)
  domain : String

/-- One row cell: the generator call under the per-cell `try`/`except`
(`Exception` → deterministic placeholder built from field name and row
index). -/
def synthCell (runGen : Nat → String → Gen → Except Unit GenValue)
    (row_idx : Nat) (fg : String × Gen) : String × CellValue :=
  match runGen row_idx fg.1 fg.2 with
  | .ok v => (fg.1, convertValue v)
  | .error _ => (fg.1, CellValue.str ("sample_" ++ fg.1 ++ "_" ++ toString row_idx))

/-- `generate_data(schema, row_count)`.  `runGen` is the outcome oracle of
the external generator calls, indexed by row and field (the re-seeding every
100 rows only changes which outcomes occur, which the oracle already
captures); `elapsed` is the measured wall-clock duration.  The row-count
bounds `1`/`10000` are the literals in the source (equal to the `MIN_ROWS`/
`MAX_ROWS` configuration defaults). -/
def generate_data (runGen : Nat → String → Gen → Except Unit GenValue)
    (elapsed : ℚ) (fakerAttrs : String → Bool)
    (schema : PySchema) (row_count : Int) : Except PyErr SyntheticDataset :=
  if row_count < 1 ∨ row_count > 10000 then
    .error (PyErr.validationError "Row count must be an integer between 1 and 10000")
  else do
    let field_generators ← map_schema_to_faker fakerAttrs schema.fields_schema
    let data := (List.range row_count.toNat).map
      (fun row_idx => field_generators.map (synthCell runGen row_idx))
    pure ⟨data, data.length, field_generators.map Prod.fst, elapsed, schema.domain⟩

lemma get_field_generator_str_total (fakerAttrs : String → Bool)
    (field m : String) (params : PyVal) :
    ∃ g, get_field_generator fakerAttrs field (PyVal.str m) params = Except.ok g := by
  unfold get_field_generator
  repeat' split
  all_goals exact ⟨_, rfl⟩

lemma synthCell_fst (runGen : Nat → String → Gen → Except Unit GenValue)
    (i : Nat) (fg : String × Gen) : (synthCell runGen i fg).1 = fg.1 := by
  unfold synthCell
  cases runGen i fg.1 fg.2 <;> rfl

lemma map_schema_to_faker_keys (fakerAttrs : String → Bool)
    (schema : List (String × PyVal)) (gens : List (String × Gen))
    (h : map_schema_to_faker fakerAttrs schema = Except.ok gens) :
    gens.map Prod.fst = schema.map Prod.fst := by
  induction schema generalizing gens with
  | nil =>
    simp only [map_schema_to_faker] at h
    cases h
    rfl
  | cons p rest ih =>
    obtain ⟨fn, fc⟩ := p
    rw [map_schema_to_faker] at h
    cases hE : fieldSpecGenerator fakerAttrs fn fc with
    | error e =>
      rw [hE] at h
      simp [Bind.bind, Except.bind] at h
    | ok g =>
      rw [hE] at h
      cases hR : map_schema_to_faker fakerAttrs rest with
      | error e =>
        rw [hR] at h
        simp [Bind.bind, Except.bind] at h
      | ok gs =>
        rw [hR] at h
        simp only [Bind.bind, Except.bind, pure, Except.pure] at h
        cases h
        simp only [List.map_cons, List.cons.injEq]
        exact ⟨trivial, ih gs hR⟩

/-- C6 (amended): field resolution is total for every schema whose
dictionary specifications carry a *string* `faker_method` value (or none at
all) — including empty dictionaries, non-dictionary specifications (coerced
with `str()` to a method name), and unrecognized method names: every field
resolves to some generator closure, and resolution raises nothing.  (A
dictionary specification whose `faker_method` is not a string makes
`hasattr` raise `TypeError`; see the counterexample.) -/
theorem c6_field_resolution_total (fakerAttrs : String → Bool)
    (schema : List (String × PyVal))
    (hstr : ∀ p ∈ schema, ∀ entries, p.2 = PyVal.dict entries →
      ∀ v, lookupStr entries "faker_method" = some v → ∃ s, v = PyVal.str s) :
    ∃ gens : List (String × Gen),
      map_schema_to_faker fakerAttrs schema = Except.ok gens ∧
      gens.map Prod.fst = schema.map Prod.fst := by
  induction schema with
  | nil => exact ⟨[], rfl, rfl⟩
  | cons p rest ih =>
    obtain ⟨fn, fc⟩ := p
    obtain ⟨gens, hgens, hkeys⟩ := ih (fun q hq => hstr q (List.mem_cons_of_mem _ hq))
    have hg : ∃ g, fieldSpecGenerator fakerAttrs fn fc = Except.ok g := by
      unfold fieldSpecGenerator
      cases fc with
      | dict entries =>
        cases hfm : lookupStr entries "faker_method" with
        | none =>
          simpa [hfm] using
            get_field_generator_str_total fakerAttrs fn "word"
              ((lookupStr entries "parameters").getD (PyVal.dict []))
        | some v =>
          obtain ⟨s, rfl⟩ :=
            hstr (fn, PyVal.dict entries) (List.mem_cons_self _ _) entries rfl v hfm
          simpa [hfm] using
            get_field_generator_str_total fakerAttrs fn s
              ((lookupStr entries "parameters").getD (PyVal.dict []))
      | str s => exact get_field_generator_str_total fakerAttrs fn s _
      | int n => exact get_field_generator_str_total fakerAttrs fn _ _
      | pyBool b => exact get_field_generator_str_total fakerAttrs fn _ _
      | pyNone => exact get_field_generator_str_total fakerAttrs fn _ _
    obtain ⟨g, hg⟩ := hg
    refine ⟨(fn, g) :: gens, ?_, ?_⟩
    · rw [map_schema_to_faker, hg, hgens]
      rfl
    · simp [hkeys]

/-- C6, counterexample to the claim as stated: a dictionary field
specification whose `faker_method` is the integer `123` is not resolved —
`hasattr(self.faker, 123)` raises `TypeError` and `map_schema_to_faker`
propagates it. -/
theorem c6_counterexample_nonstring_method :
    map_schema_to_faker (fun _ => false)
      [("field1", PyVal.dict [("faker_method", PyVal.int 123)])] =
      Except.error PyErr.typeError := rfl

/-- C6 witness: the theorem at a concrete schema with an empty dictionary
specification and an unrecognized string method name. -/
theorem c6_witness :
    (∀ p ∈ ([("email", PyVal.dict []), ("foo", PyVal.str "foo_bar_123")] :
        List (String × PyVal)),
      ∀ entries, p.2 = PyVal.dict entries →
      ∀ v, lookupStr entries "faker_method" = some v → ∃ s, v = PyVal.str s) ∧
    ∃ gens : List (String × Gen),
      map_schema_to_faker (fun _ => false)
        [("email", PyVal.dict []), ("foo", PyVal.str "foo_bar_123")] =
        Except.ok gens ∧
      gens.map Prod.fst = ["email", "foo"] := by
  have hh : ∀ p ∈ ([("email", PyVal.dict []), ("foo", PyVal.str "foo_bar_123")] :
      List (String × PyVal)),
      ∀ entries, p.2 = PyVal.dict entries →
      ∀ v, lookupStr entries "faker_method" = some v → ∃ s, v = PyVal.str s := by
    intro p hp entries he v hv
    simp only [List.mem_cons, List.not_mem_nil, or_false] at hp
    rcases hp with rfl | rfl
    · cases he
      simp [lookupStr] at hv
    · exact PyVal.noConfusion he
  obtain ⟨gens, h1, h2⟩ := c6_field_resolution_total (fun _ => false) _ hh
  exact ⟨hh, gens, h1, h2⟩

/-- C7: `generate_data` rejects every out-of-range row count (0, negatives,
anything above 10000) with the validation failure — for *every* generator
oracle, i.e. before any generator is invoked; for every in-range row count
it returns a dataset whose `row_count` equals the request, whose data list
has exactly that many rows, and whose every row carries exactly the declared
field names as keys, in order. -/
theorem c7_row_count_validation_and_shape (elapsed : ℚ)
    (fakerAttrs : String → Bool) (schema : PySchema) (row_count : Int) :
    ((row_count < 1 ∨ row_count > 10000) →
      ∀ runGen, generate_data runGen elapsed fakerAttrs schema row_count =
        Except.error (PyErr.validationError
          "Row count must be an integer between 1 and 10000")) ∧
    (∀ runGen gens, 1 ≤ row_count → row_count ≤ 10000 →
      map_schema_to_faker fakerAttrs schema.fields_schema = Except.ok gens →
      ∃ ds, generate_data runGen elapsed fakerAttrs schema row_count =
          Except.ok ds ∧
        ds.row_count = row_count.toNat ∧
        ds.data.length = row_count.toNat ∧
        ds.field_names = schema.fields_schema.map Prod.fst ∧
        ∀ row ∈ ds.data, row.map Prod.fst = schema.fields_schema.map Prod.fst) := by
  constructor
  · intro hbad runGen
    unfold generate_data
    rw [if_pos hbad]
  · intro runGen gens h1 h2 hres
    have hok : ¬(row_count < 1 ∨ row_count > 10000) := by omega
    have hkeys := map_schema_to_faker_keys fakerAttrs schema.fields_schema gens hres
    refine ⟨⟨(List.range row_count.toNat).map
        (fun row_idx => gens.map (synthCell runGen row_idx)),
      ((List.range row_count.toNat).map
        (fun row_idx => gens.map (synthCell runGen row_idx))).length,
      gens.map Prod.fst, elapsed, schema.domain⟩, ?_, ?_, ?_, ?_, ?_⟩
    · unfold generate_data
      rw [if_neg hok, hres]
      rfl
    · simp
    · simp
    · exact hkeys
    · intro row hrow
      simp only [List.mem_map, List.mem_range] at hrow
      obtain ⟨i, -, rfl⟩ := hrow
      rw [List.map_map, ← hkeys]
      exact List.map_congr_left (fun fg _ => synthCell_fst runGen i fg)

/-- C7 witness: the rejection at row count 0 and the shape at row count 10,
for a concrete one-field schema. -/
theorem c7_witness :
    (generate_data (fun _ _ _ => Except.ok (GenValue.int 5)) 0 (fun _ => false)
       ⟨[("email", PyVal.str "email")], "general"⟩ 0 =
       Except.error (PyErr.validationError
         "Row count must be an integer between 1 and 10000")) ∧
    (map_schema_to_faker (fun _ => false) [("email", PyVal.str "email")] =
       Except.ok [("email", Gen.fakerAttr "email")] ∧
     ∃ ds, generate_data (fun _ _ _ => Except.ok (GenValue.int 5)) 0 (fun _ => false)
         ⟨[("email", PyVal.str "email")], "general"⟩ 10 = Except.ok ds ∧
       ds.row_count = (10 : Int).toNat ∧
       ds.data.length = (10 : Int).toNat ∧
       ds.field_names = ["email"] ∧
       ∀ row ∈ ds.data, row.map Prod.fst = ["email"]) := by
  refine ⟨?_, rfl, ?_⟩
  · exact (c7_row_count_validation_and_shape 0 (fun _ => false)
      ⟨[("email", PyVal.str "email")], "general"⟩ 0).1 (by omega) _
  · exact (c7_row_count_validation_and_shape 0 (fun _ => false)
      ⟨[("email", PyVal.str "email")], "general"⟩ 10).2
      (fun _ _ _ => Except.ok (GenValue.int 5)) [("email", Gen.fakerAttr "email")]
      (by omega) (by omega) rfl

/-- C8: with any oracle of generator outcomes, whenever the call for a field
in a row raises, that cell — and only by replacement of that cell — carries
the deterministic placeholder `sample_<field>_<row_idx>`, while the dataset
still completes with the full requested row count. -/
theorem c8_per_cell_isolation (runGen : Nat → String → Gen → Except Unit GenValue)
    (elapsed : ℚ) (fakerAttrs : String → Bool) (schema : PySchema)
    (row_count : Int) (gens : List (String × Gen))
    (h1 : 1 ≤ row_count) (h2 : row_count ≤ 10000)
    (hres : map_schema_to_faker fakerAttrs schema.fields_schema = Except.ok gens) :
    ∃ ds, generate_data runGen elapsed fakerAttrs schema row_count = Except.ok ds ∧
      ds.data.length = row_count.toNat ∧
      ∀ r < row_count.toNat,
        ds.data.getD r [] = gens.map (synthCell runGen r) ∧
        ∀ fg ∈ gens, runGen r fg.1 fg.2 = Except.error () →
          (fg.1, CellValue.str ("sample_" ++ fg.1 ++ "_" ++ toString r)) ∈
            ds.data.getD r [] := by
  have hok : ¬(row_count < 1 ∨ row_count > 10000) := by omega
  refine ⟨⟨(List.range row_count.toNat).map
      (fun row_idx => gens.map (synthCell runGen row_idx)),
    ((List.range row_count.toNat).map
      (fun row_idx => gens.map (synthCell runGen row_idx))).length,
    gens.map Prod.fst, elapsed, schema.domain⟩, ?_, by simp, ?_⟩
  · unfold generate_data
    rw [if_neg hok, hres]
    rfl
  · intro r hr
    have hrow : ((List.range row_count.toNat).map
        (fun row_idx => gens.map (synthCell runGen row_idx))).getD r [] =
        gens.map (synthCell runGen r) := by
      rw [List.getD_eq_getElem?_getD, List.getElem?_map, List.getElem?_range hr]
      rfl
    refine ⟨hrow, ?_⟩
    intro fg hfg hfail
    rw [hrow]
    refine List.mem_map.mpr ⟨fg, hfg, ?_⟩
    simp [synthCell, hfail]

/-- C8 witness: a two-field schema where the second field's generator raises
in every row; each affected cell is the placeholder and the dataset has the
full two rows. -/
theorem c8_witness :
    (map_schema_to_faker (fun _ => false)
       [("email", PyVal.str "email"), ("foo", PyVal.str "foo_bar_123")] =
       Except.ok [("email", Gen.fakerAttr "email"),
                  ("foo", Gen.fakerLambda "fallback_word")]) ∧
    ∃ ds, generate_data
        (fun _ f _ => if f = "foo" then Except.error ()
                      else Except.ok (GenValue.str "v")) 0 (fun _ => false)
        ⟨[("email", PyVal.str "email"), ("foo", PyVal.str "foo_bar_123")],
         "general"⟩ 2 = Except.ok ds ∧
      ds.data.length = (2 : Int).toNat ∧
      ∀ r < (2 : Int).toNat,
        ds.data.getD r [] =
          [("email", Gen.fakerAttr "email"),
           ("foo", Gen.fakerLambda "fallback_word")].map
            (synthCell (fun _ f _ => if f = "foo" then Except.error ()
                                     else Except.ok (GenValue.str "v")) r) ∧
        ∀ fg ∈ [("email", Gen.fakerAttr "email"),
                ("foo", Gen.fakerLambda "fallback_word")],
          (fun _ f _ => if f = "foo" then (Except.error () : Except Unit GenValue)
                        else Except.ok (GenValue.str "v")) r fg.1 fg.2 =
            Except.error () →
          (fg.1, CellValue.str ("sample_" ++ fg.1 ++ "_" ++ toString r)) ∈
            ds.data.getD r [] :=
  ⟨rfl, c8_per_cell_isolation
    (fun _ f _ => if f = "foo" then Except.error () else Except.ok (GenValue.str "v"))
    0 (fun _ => false)
    ⟨[("email", PyVal.str "email"), ("foo", PyVal.str "foo_bar_123")], "general"⟩
    2 [("email", Gen.fakerAttr "email"), ("foo", Gen.fakerLambda "fallback_word")]
    (by omega) (by omega) rfl⟩

end SDG
